import Mathlib

set_option maxRecDepth 100000

/-!
Shallow embedding of the `emash-hardware-detection` repository
(`hardware_detector.py` and `supabase_uploader.py`).

Python values are modelled by the `Value` type below; the detector's
`raw_data` dictionary is an association list (`Bag`) written by a
sequence of conditional key assignments; each `detect_*` method is
translated into the list of dictionary assignments it performs, in
source order, so that later assignments overwrite earlier ones exactly
as in Python.  Python floats are modelled by exact rationals; the one
irrational operation in the source (a floating-point square root used
for screen diagonals) is modelled by a fixed-precision integer square
root.  Regular-expression searches of the source are translated into
explicit scanning functions over the command output strings; match
results that no claim depends on (display geometry, battery readings)
are taken as inputs of the detection environment, standing for the
corresponding `re.search` results.
-/

/-- A Python runtime value as used by the two scripts: strings, ints,
floats (modelled as exact rationals), booleans, `None`, lists and
dicts. -/
inductive Value where
  | str : String → Value
  | int : Int → Value
  | rat : Rat → Value
  | bool : Bool → Value
  | null : Value
  | list : List Value → Value
  | dict : List (String × Value) → Value
  deriving Repr, BEq

/-- `v is None`. -/
def Value.isNull : Value → Bool
  | .null => true
  | _ => false

/-- Python truthiness: empty string, zero, `False`, `None`, and empty
containers are falsy, everything else is truthy. -/
def pyTruthy : Value → Bool
  | .str s => s ≠ ""
  | .int n => n ≠ 0
  | .rat q => q ≠ 0
  | .bool b => b
  | .null => false
  | .list l => !l.isEmpty
  | .dict l => !l.isEmpty

/-- Python `==` on values: numbers (ints, floats, booleans) compare by
numeric value across types, strings compare as strings, `None` only
equals `None`, containers compare elementwise. -/
def pyEq : Value → Value → Bool
  | .str a, .str b => a == b
  | .int a, .int b => a == b
  | .int a, .rat b => (a : Rat) == b
  | .rat a, .int b => a == (b : Rat)
  | .rat a, .rat b => a == b
  | .bool a, .bool b => a == b
  | .bool a, .int b => (if a then (1 : Int) else 0) == b
  | .int a, .bool b => a == (if b then (1 : Int) else 0)
  | .bool a, .rat b => (if a then (1 : Rat) else 0) == b
  | .rat a, .bool b => a == (if b then (1 : Rat) else 0)
  | .null, .null => true
  | .list a, .list b => pyEqList a b
  | .dict a, .dict b => pyEqDict a b
  | _, _ => false
where
  pyEqList : List Value → List Value → Bool
    | [], [] => true
    | x :: xs, y :: ys => pyEq x y && pyEqList xs ys
    | _, _ => false
  pyEqDict : List (String × Value) → List (String × Value) → Bool
    | [], [] => true
    | (k, x) :: xs, (k2, y) :: ys => k == k2 && pyEq x y && pyEqDict xs ys
    | _, _ => false

/-- The detector's `raw_data` / `bestbuy_data` dictionaries. -/
def Bag := List (String × Value)

/-- Python dict assignment `d[k] = v`: replace the binding if present,
else append it (insertion order preserved). -/
def Bag.set : Bag → String → Value → Bag
  | [], k, v => [(k, v)]
  | (k2, v2) :: rest, k, v =>
      if k2 == k then (k, v) :: rest else (k2, v2) :: Bag.set rest k v

/-- Python `k in d` / `d[k]` lookup. -/
def Bag.get? : Bag → String → Option Value
  | [], _ => Option.none
  | (k2, v2) :: rest, k => if k2 == k then some v2 else Bag.get? rest k

/-- Python `d.get(k, default)`. -/
def Bag.getD (b : Bag) (k : String) (d : Value) : Value :=
  (b.get? k).getD d

/-- Python `k in d`. -/
def Bag.hasKey (b : Bag) (k : String) : Bool :=
  (b.get? k).isSome

@[simp] theorem Bag.get?_set_self (b : Bag) (k : String) (v : Value) :
    (b.set k v).get? k = some v := by
  induction b with
  | nil => simp [Bag.set, Bag.get?]
  | cons p rest ih =>
      by_cases h : p.1 == k
      · simp [Bag.set, Bag.get?, h]
      · simp only [Bag.set, Bag.get?]
        rw [if_neg (by simpa using h)]
        simpa [Bag.get?, h] using ih

theorem Bag.get?_set_ne (b : Bag) (k k2 : String) (v : Value) (h : k2 ≠ k) :
    (b.set k2 v).get? k = b.get? k := by
  induction b with
  | nil => simp [Bag.set, Bag.get?, h]
  | cons p rest ih =>
      by_cases h2 : p.1 == k2
      · have : ¬(k2 == k) := by simpa using h
        simp only [Bag.set, Bag.get?]
        rw [if_pos h2]
        simp only [Bag.get?]
        rw [if_neg this]
        have : ¬(p.1 == k) = true := by
          intro hc
          exact h (by
            have e1 : p.1 = k2 := by simpa using h2
            have e2 : p.1 = k := by simpa using hc
            rw [← e1, e2])
        simp [this]
      · simp only [Bag.set, Bag.get?]
        rw [if_neg h2]
        by_cases h3 : p.1 == k
        · simp [Bag.get?, h3]
        · simp [Bag.get?, h3, ih]

/-! ## String and number helpers mirroring Python primitives -/

/-- `pat` is a prefix of `s` (on character lists). -/
def lstart : List Char → List Char → Bool
  | _, [] => true
  | [], _ :: _ => false
  | a :: as, b :: bs => a == b && lstart as bs

/-- `pat` occurs somewhere in `s` (on character lists): Python `pat in s`. -/
def lcontains (s pat : List Char) : Bool :=
  if lstart s pat then true
  else match s with
    | [] => false
    | _ :: rest => lcontains rest pat

/-- Python `pat in s` on strings. -/
def strContains (s pat : String) : Bool :=
  lcontains s.data pat.data

/-- Numeric value of a digit string. -/
def natOfDigits (ds : List Char) : Nat :=
  ds.foldl (fun n c => n * 10 + (c.toNat - 48)) 0

/-! ### Kernel-friendly rational arithmetic

The Batteries arithmetic on `Rat` is `@[irreducible]`, so concrete
runs of the embedded program could not be evaluated inside proofs.
The embedding therefore computes with the following `mkRat`-based
operations; they are proved equal to the library operations below, so
symbolic claims can still be stated with ordinary `ℚ` arithmetic. -/

def ratAdd (a b : Rat) : Rat :=
  mkRat (a.num * (b.den : Int) + b.num * (a.den : Int)) (a.den * b.den)

def ratSub (a b : Rat) : Rat :=
  mkRat (a.num * (b.den : Int) - b.num * (a.den : Int)) (a.den * b.den)

def ratMul (a b : Rat) : Rat :=
  mkRat (a.num * b.num) (a.den * b.den)

def ratDiv (a b : Rat) : Rat :=
  if b.num < 0 then mkRat (-(a.num * (b.den : Int))) (a.den * b.num.natAbs)
  else mkRat (a.num * (b.den : Int)) (a.den * b.num.natAbs)

def ratAbs (a : Rat) : Rat :=
  mkRat (Int.ofNat a.num.natAbs) a.den

/-- Floor of a rational (the denominator is positive by invariant). -/
def ratFloor (a : Rat) : Int :=
  Int.fdiv a.num (a.den : Int)

/-- `10 ^ k` as a rational. -/
def powTen (k : Nat) : Rat :=
  mkRat (Int.ofNat (10 ^ k)) 1

theorem ratSub_eq_sub (a b : Rat) : ratSub a b = a - b := by
  unfold ratSub
  rw [Rat.mkRat_eq_div]
  have ha : ((a.den : ℚ)) ≠ 0 := by
    exact_mod_cast a.den_nz
  have hb : ((b.den : ℚ)) ≠ 0 := by
    exact_mod_cast b.den_nz
  conv_rhs => rw [← Rat.num_div_den a, ← Rat.num_div_den b]
  push_cast
  field_simp
  ring

theorem ratAbs_eq_abs (a : Rat) : ratAbs a = |a| := by
  unfold ratAbs
  rw [Rat.mkRat_eq_div]
  have ha : (0 : ℚ) < (a.den : ℚ) := by
    exact_mod_cast Nat.pos_of_ne_zero a.den_nz
  conv_rhs => rw [← Rat.num_div_den a]
  rw [abs_div, abs_of_pos ha]
  congr 1
  rw [Int.ofNat_eq_natCast]
  simp [Int.cast_natAbs]

theorem ratDiv_eq_div (a b : Rat) : ratDiv a b = a / b := by
  unfold ratDiv
  have ha : ((a.den : ℚ)) ≠ 0 := by exact_mod_cast a.den_nz
  have hbd : ((b.den : ℚ)) ≠ 0 := by exact_mod_cast b.den_nz
  by_cases hz : b.num = 0
  · have hb0 : b = 0 := Rat.num_eq_zero.mp hz
    subst hb0
    simp [hz, Rat.mkRat_eq_div]
  · have hb : b ≠ 0 := by
      intro hc
      exact hz (by simp [hc])
    have hbnum : ((b.num : ℚ)) ≠ 0 := by exact_mod_cast hz
    have key : a / b = ((a.num * (b.den : Int) : Int) : ℚ) / ((a.den : Int) * b.num : ℚ) := by
      conv_lhs => rw [← Rat.num_div_den a, ← Rat.num_div_den b]
      push_cast
      field_simp
    by_cases hneg : b.num < 0
    · rw [if_pos hneg, Rat.mkRat_eq_div, key]
      have hq : ((b.num : ℚ)) < 0 := by exact_mod_cast hneg
      have habs : ((b.num.natAbs : ℚ)) = -(b.num : ℚ) := by
        push_cast [Int.cast_natAbs]
        rw [abs_of_neg hq]
      have hden1 : ((a.den : ℚ)) * -((b.num : ℚ)) ≠ 0 := by
        apply mul_ne_zero ha
        simpa using hbnum
      have hden2 : ((a.den : ℚ)) * ((b.num : ℚ)) ≠ 0 := mul_ne_zero ha hbnum
      push_cast [habs]
      rw [div_eq_div_iff hden1 hden2]
      ring
    · rw [if_neg hneg, Rat.mkRat_eq_div, key]
      have hq : (0 : ℚ) ≤ ((b.num : ℚ)) := by exact_mod_cast le_of_not_lt hneg
      have habs : ((b.num.natAbs : ℚ)) = (b.num : ℚ) := by
        push_cast [Int.cast_natAbs]
        rw [abs_of_nonneg hq]
      have hden2 : ((a.den : ℚ)) * ((b.num : ℚ)) ≠ 0 := mul_ne_zero ha hbnum
      push_cast [habs]
      rw [div_eq_div_iff hden2 hden2]

/-! ### Structural string helpers

The core `String` functions `splitOn`, `split`, `trim`, `replace` and
`map` are defined by well-founded recursion over byte positions and do
not evaluate inside proofs, so the embedding uses these structural
equivalents on character lists. -/

/-- `String.split` / whitespace-field splitting, structurally. -/
def splitByAux (p : Char → Bool) : List Char → List Char → List (List Char)
  | acc, [] => [acc.reverse]
  | acc, c :: rest =>
      if p c then acc.reverse :: splitByAux p [] rest
      else splitByAux p (c :: acc) rest

def splitOnFuelAux (sep : List Char) : Nat → List Char → List Char → List (List Char)
  | 0, acc, rest => [acc.reverse ++ rest]
  | _ + 1, acc, [] => [acc.reverse]
  | fuel + 1, acc, s@(c :: rest) =>
      if lstart s sep then
        acc.reverse :: splitOnFuelAux sep fuel [] (s.drop sep.length)
      else splitOnFuelAux sep fuel (c :: acc) rest

/-- Python `s.split(sep)` for nonempty `sep` (non-overlapping,
left-to-right, empty fields kept). -/
def pySplitOn (s sep : String) : List String :=
  if sep.data.isEmpty then [s]
  else (splitOnFuelAux sep.data (s.data.length + 1) [] s.data).map String.mk

/-- Python `s.strip()`. -/
def pyStrip (s : String) : String :=
  String.mk (((s.data.dropWhile Char.isWhitespace).reverse.dropWhile
    Char.isWhitespace).reverse)

/-- Python `s.replace(pat, rep)` (all non-overlapping occurrences). -/
def replaceFuelAux (pat rep : List Char) : Nat → List Char → List Char
  | 0, rest => rest
  | _ + 1, [] => []
  | fuel + 1, s@(c :: rest) =>
      if lstart s pat then rep ++ replaceFuelAux pat rep fuel (s.drop pat.length)
      else c :: replaceFuelAux pat rep fuel rest

def pyReplace (s pat rep : String) : String :=
  if pat.data.isEmpty then s
  else String.mk (replaceFuelAux pat.data rep.data (s.data.length + 1) s.data)

/-- Python `sep.join(parts)`. -/
def pyJoin (sep : String) (parts : List String) : String :=
  match parts with
  | [] => ""
  | p :: rest => rest.foldl (fun acc q => acc ++ sep ++ q) p

/-- Python `s.lower()` (ASCII case folding, as in the source's inputs). -/
def pyLower (s : String) : String :=
  String.mk (s.data.map Char.toLower)

/-- Python `s.split()` with no argument: split on whitespace runs,
dropping empty fields. -/
def pySplitWs (s : String) : List String :=
  ((splitByAux Char.isWhitespace [] s.data).map String.mk).filter (fun t => t ≠ "")

/-- Python `float(s)` for the plain decimal forms produced by the
source's regex captures (`\d+`, `[\d.]+`); malformed captures, on which
Python would raise, give `none`. -/
def pyFloat (s : String) : Option Rat :=
  let cs := s.data
  let ip := cs.takeWhile Char.isDigit
  let rest := cs.drop ip.length
  match rest with
  | [] => if ip.isEmpty then Option.none else some ((natOfDigits ip : Nat) : Rat)
  | c :: fp =>
      if c == '.' then
        let fd := fp.takeWhile Char.isDigit
        if fd.length == fp.length && !(ip.isEmpty && fd.isEmpty) then
          some (ratAdd ((natOfDigits ip : Nat) : Rat)
                (ratDiv ((natOfDigits fd : Nat) : Rat) (powTen fd.length)))
        else Option.none
      else Option.none

/-- Python `round(x)`: nearest integer, ties to even. -/
def pyRound (q : Rat) : Int :=
  let f := ratFloor q
  let r := ratSub q ((f : Int) : Rat)
  if r < mkRat 1 2 then f
  else if mkRat 1 2 < r then f + 1
  else if f % 2 = 0 then f else f + 1

/-- Python `round(x, n)` on the exact-rational model of floats. -/
def pyRoundTo (q : Rat) (n : Nat) : Rat :=
  ratDiv ((pyRound (ratMul q (powTen n)) : Int) : Rat) (powTen n)

/-- Python `int(v)` as applied by the uploader to `ram_size_gb`:
ints pass through, floats truncate toward zero, booleans become 0/1,
decimal strings parse; other values (on which Python would raise,
unreachable for detector data) give 0. -/
def pyIntTrunc : Value → Int
  | .int n => n
  | .rat q => Int.tdiv q.num (q.den : Int)
  | .bool b => if b then 1 else 0
  | .str s =>
      match s.data with
      | '-' :: ds => if !ds.isEmpty && ds.all Char.isDigit then -(natOfDigits ds : Int) else 0
      | ds => if !ds.isEmpty && ds.all Char.isDigit then (natOfDigits ds : Int) else 0
  | _ => 0

/-- Left-pad a digit string with zeros to width `k`. -/
def padZeros (s : String) (k : Nat) : String :=
  String.mk (List.replicate (k - s.length) '0') ++ s

/-- Python `str(x)` for a float, on the exact-rational model: a
terminating decimal is printed exactly (integral values with a trailing
`.0`, as Python does); a non-terminating one falls back to a
numerator/denominator rendering (unreachable for the source's values). -/
def ratDecimalStr (q : Rat) : String :=
  let sign := if q < 0 then "-" else ""
  let a := ratAbs q
  match (List.range 18).find? (fun k => 10 ^ k % a.den == 0) with
  | some 0 => sign ++ toString a.num ++ ".0"
  | some k =>
      let n := (ratFloor (ratMul a (powTen k))).toNat
      sign ++ toString (n / 10 ^ k) ++ "." ++ padZeros (toString (n % 10 ^ k)) k
  | Option.none => sign ++ toString a.num ++ "/" ++ toString a.den

/-- Python `str(v)` / f-string interpolation for the value kinds the
source interpolates (strings, numbers, booleans, `None`); containers
render as placeholders (never interpolated by the source). -/
def pyStr : Value → String
  | .str s => s
  | .int n => toString n
  | .rat q => ratDecimalStr q
  | .bool b => if b then "True" else "False"
  | .null => "None"
  | .list _ => "[...]"
  | .dict _ => "\x7b...\x7d"

/-! ## Scanning translations of the source's `re.search` patterns

`re.search` tries the pattern at every position of the text, succeeding
at the leftmost position where it matches; `scanFor p s` mirrors this
for a position parser `p`. -/

/-- Try parser `p` at every suffix of `s`, leftmost success first. -/
def scanFor {α : Type} (p : List Char → Option α) : List Char → Option α
  | [] => p []
  | s@(_ :: rest) =>
      match p s with
      | some a => some a
      | Option.none => scanFor p rest

/-- Position parser for `LABEL` followed by `sub`. -/
def labelThen {α : Type} (label : List Char) (sub : List Char → Option α)
    (s : List Char) : Option α :=
  if lstart s label then sub (s.drop label.length) else Option.none

/-- Subparser for `\s*(.+)`: skip whitespace (which may cross line
breaks), then capture the rest of the line; a label followed only by
whitespace does not match. -/
def pCapLine (s : List Char) : Option String :=
  let t := s.dropWhile Char.isWhitespace
  if t.isEmpty then Option.none else some (String.mk (t.takeWhile (fun c => c ≠ '\n')))

/-- Subparser for `\s*(\d+)\s*UNIT`. -/
def pNatUnit (unit : List Char) (s : List Char) : Option Nat :=
  let t := s.dropWhile Char.isWhitespace
  let ds := t.takeWhile Char.isDigit
  if ds.isEmpty then Option.none
  else
    let r := (t.drop ds.length).dropWhile Char.isWhitespace
    if lstart r unit then some (natOfDigits ds) else Option.none

/-- Subparser for `\s*([\d.]+)`: a float capture. -/
def pFloatCap (s : List Char) : Option Rat :=
  let t := s.dropWhile Char.isWhitespace
  let run := t.takeWhile (fun c => c.isDigit || c == '.')
  if run.isEmpty then Option.none else pyFloat (String.mk run)

/-- `re.search(LABEL + r":\s*(.+)", text)` style captures (the label
includes its trailing colon or equals sign at call sites). -/
def reSearchCapture (label : String) (text : String) : Option String :=
  scanFor (labelThen label.data pCapLine) text.data

/-- `re.search(LABEL + r"\s*(\d+)\s*UNIT", text)` style captures. -/
def reSearchNatUnit (label unit : String) (text : String) : Option Nat :=
  scanFor (labelThen label.data (pNatUnit unit.data)) text.data

/-- `re.search(LABEL + r"\s*([\d.]+)", text)` style captures. -/
def reSearchFloat (label : String) (text : String) : Option Rat :=
  scanFor (labelThen label.data pFloatCap) text.data

/-- `re.search(r"Maximum Capacity:\s*(\d+)\s*(GB|MB)", text)`:
the number together with whether the unit was GB. -/
def reSearchNatGbMb (label : String) (text : String) : Option (Nat × Bool) :=
  scanFor (labelThen label.data (fun s =>
    let t := s.dropWhile Char.isWhitespace
    let ds := t.takeWhile Char.isDigit
    if ds.isEmpty then Option.none
    else
      let r := (t.drop ds.length).dropWhile Char.isWhitespace
      if lstart r "GB".data then some (natOfDigits ds, true)
      else if lstart r "MB".data then some (natOfDigits ds, false)
      else Option.none)) text.data

/-- `re.search(r"Type:\s*(DDR\d+)", text)`. -/
def reSearchDDR (text : String) : Option String :=
  scanFor (labelThen "Type:".data (fun s =>
    let t := s.dropWhile Char.isWhitespace
    if lstart t "DDR".data then
      let ds := (t.drop 3).takeWhile Char.isDigit
      if ds.isEmpty then Option.none else some ("DDR" ++ String.mk ds)
    else Option.none)) text.data

/-- `re.search(r"L3 cache:\s*(\d+(?:\.\d+)?)\s*([KMG]iB)", text)`:
the numeric capture and the unit capture. -/
def reSearchL3 (text : String) : Option (String × String) :=
  scanFor (labelThen "L3 cache:".data (fun s =>
    let t := s.dropWhile Char.isWhitespace
    let ds := t.takeWhile Char.isDigit
    if ds.isEmpty then Option.none
    else
      let rest := t.drop ds.length
      let (num, rest2) :=
        match rest with
        | '.' :: more =>
            let fd := more.takeWhile Char.isDigit
            if fd.isEmpty then (ds, rest)
            else (ds ++ '.' :: fd, more.drop fd.length)
        | _ => (ds, rest)
      let r := rest2.dropWhile Char.isWhitespace
      match r with
      | c :: r2 =>
          if (c == 'K' || c == 'M' || c == 'G') && lstart r2 "iB".data then
            some (String.mk num, String.mk [c] ++ "iB")
          else Option.none
      | [] => Option.none)) text.data

/-- `re.findall(LABEL + r":\s*(.+)", text)`: all captures, resuming
after each match (fuel bounds the scan). -/
def scanAllCap (label : List Char) : Nat → List Char → List String
  | 0, _ => []
  | _ + 1, [] => []
  | fuel + 1, s@(_ :: rest) =>
      if lstart s label then
        let t := (s.drop label.length).dropWhile Char.isWhitespace
        if t.isEmpty then scanAllCap label fuel rest
        else
          let cap := t.takeWhile (fun c => c ≠ '\n')
          String.mk cap :: scanAllCap label fuel (t.drop cap.length)
      else scanAllCap label fuel rest

def reFindAllCapture (label : String) (text : String) : List String :=
  scanAllCap label.data (text.data.length + 1) text.data

/-- Number of matches of `LABEL\s*LIT` in `text`
(`re.findall(r"Size:\s*No Module Installed", ...)`). -/
def scanCountLit (label lit : List Char) : Nat → List Char → Nat
  | 0, _ => 0
  | _ + 1, [] => 0
  | fuel + 1, s@(_ :: rest) =>
      if lstart s label then
        let t := (s.drop label.length).dropWhile Char.isWhitespace
        if lstart t lit then
          1 + scanCountLit label lit fuel (t.drop lit.length)
        else scanCountLit label lit fuel rest
      else scanCountLit label lit fuel rest

def reCountLit (label lit : String) (text : String) : Nat :=
  scanCountLit label.data lit.data (text.data.length + 1) text.data

/-! ## The detector (`hardware_detector.py`, class `HardwareDetector`)

Each `detect_*` method is translated into the list of dictionary
assignments it performs on `raw_data`, in source order; an entry
`(key, some v)` is an executed assignment, `(key, none)` is an
assignment guarded by a condition that failed.  `applyUpdates` then
replays them with Python dict semantics.  Command outputs and the
outcomes of the `try`-blocks are inputs (`DetectEnv`); for the display
and battery probes, whose regex shapes no claim depends on, the match
results themselves are environment inputs standing for the
corresponding `re.search` results. -/

def applyUpd (b : Bag) (u : String × Option Value) : Bag :=
  match u.2 with
  | some v => b.set u.1 v
  | Option.none => b

def applyUpdates (b : Bag) (us : List (String × Option Value)) : Bag :=
  us.foldl applyUpd b

/-- `detect_system_info`: `dmidecode` passthroughs plus six labelled
captures from the system table. -/
def detectSystemInfoUpd (dmiSystem dmiBios dmiChassis : String) :
    List (String × Option Value) :=
  [("dmidecode_system", some (.str dmiSystem)),
   ("dmidecode_bios", some (.str dmiBios)),
   ("dmidecode_chassis", some (.str dmiChassis)),
   ("brand", (reSearchCapture "Manufacturer:" dmiSystem).map (fun v => .str (pyStrip v))),
   ("model", (reSearchCapture "Product Name:" dmiSystem).map (fun v => .str (pyStrip v))),
   ("serial", (reSearchCapture "Serial Number:" dmiSystem).map (fun v => .str (pyStrip v))),
   ("uuid", (reSearchCapture "UUID:" dmiSystem).map (fun v => .str (pyStrip v))),
   ("sku", (reSearchCapture "SKU Number:" dmiSystem).map (fun v => .str (pyStrip v))),
   ("family", (reSearchCapture "Family:" dmiSystem).map (fun v => .str (pyStrip v)))]

/-- `detect_processor`. -/
def detectProcessorUpd (lscpuOut dmiProcessor : String) :
    List (String × Option Value) :=
  [("lscpu", some (.str lscpuOut)),
   ("cpu_model", (reSearchCapture "Model name:" lscpuOut).map (fun v => .str (pyStrip v))),
   ("cpu_cores",
     match reSearchNatUnit "Core(s) per socket:" "" lscpuOut,
           reSearchNatUnit "Socket(s):" "" lscpuOut with
     | some c, some s => some (.int ((c : Int) * (s : Int)))
     | _, _ => Option.none),
   ("cpu_speed_mhz", (reSearchFloat "CPU MHz:" lscpuOut).map .rat),
   ("cpu_speed_ghz", (reSearchFloat "CPU MHz:" lscpuOut).map
      (fun m => .rat (pyRoundTo (ratDiv m (mkRat 1000 1)) 2))),
   ("cpu_max_mhz", (reSearchFloat "CPU max MHz:" lscpuOut).map .rat),
   ("cpu_max_ghz", (reSearchFloat "CPU max MHz:" lscpuOut).map
      (fun m => .rat (pyRoundTo (ratDiv m (mkRat 1000 1)) 2))),
   ("cpu_l3_cache", (reSearchL3 lscpuOut).map
      (fun p => .str (p.1 ++ " " ++ pyReplace p.2 "iB" "B" ++ " L3"))),
   ("dmidecode_processor", some (.str dmiProcessor))]

/-- `detect_memory`: per-module sizes from `Memory Device` sections
that are not `No Module Installed`. -/
def installedRamSizes (dmiMemory : String) : List Nat :=
  ((pySplitOn dmiMemory "Handle").filter
     (fun sec => strContains sec "Memory Device" &&
                 !strContains sec "No Module Installed")).filterMap
    (reSearchNatUnit "Size:" "GB")

def physicalRamGb (dmiMemory : String) : Option Nat :=
  let sizes := installedRamSizes dmiMemory
  if sizes.isEmpty then Option.none else some sizes.sum

/-- The fixed candidate list of `detect_memory`. -/
def standardRamSizes : List Nat := [2, 4, 6, 8, 12, 16, 24, 32, 48, 64, 96, 128, 192, 256]

/-- `min(standard_sizes, key=lambda x: abs(x - mem_gb_raw))`: Python's
`min` keeps the first element on ties. -/
def closestStandardSize (raw : Rat) : Nat :=
  ([4, 6, 8, 12, 16, 24, 32, 48, 64, 96, 128, 192, 256] : List Nat).foldl
    (fun (best y : Nat) =>
      if ratAbs (ratSub (y : Rat) raw) < ratAbs (ratSub (best : Rat) raw)
      then y else best) 2

/-- `MemTotal` in kB converted to GB. -/
def memGbRaw (meminfo : String) : Option Rat :=
  (reSearchNatUnit "MemTotal:" "kB" meminfo).map (fun kb => ratDiv (kb : Rat) (mkRat (1024 * 1024) 1))

/-- The value assigned to `ram_size_gb` by `detect_memory` (only when
`MemTotal` was found): the dmidecode sum when truthy, else the nearest
standard size. -/
def ramSizeGbVal (dmiMemory meminfo : String) : Option Value :=
  match memGbRaw meminfo with
  | Option.none => Option.none
  | some raw =>
      match physicalRamGb dmiMemory with
      | some p => if p ≠ 0 then some (.int p) else some (.int (closestStandardSize raw))
      | Option.none => some (.int (closestStandardSize raw))

/-- The form-factor assignments of `detect_memory` (only when an
installed form factor was found). -/
def memFormFactorUpd (installedFfs : List String) : List (String × Option Value) :=
  match installedFfs with
  | [] => []
  | ff0 :: _ =>
      [("ram_form_factor", some (.str ff0)),
       ("ram_soldered", some (.bool
          (["Row Of Chips", "Chip", "Proprietary Card", "Unknown"].any
             (fun ind => strContains ff0 ind))))]

/-- The slot-count assignments of `detect_memory`: used/available when
slots were reported, else the soldered-RAM fallback (only when
`ram_soldered` was not set by the form-factor branch). -/
def memSlotsUpd (installedFfs : List String) (totalSlots emptySlots : Nat) :
    List (String × Option Value) :=
  if totalSlots > 0 then
    [("ram_slots_used", some (.int ((totalSlots : Int) - (emptySlots : Int)))),
     ("ram_slots_available", some (.int (emptySlots : Int)))]
  else
    match installedFfs with
    | [] => [("ram_soldered", some (.bool true)),
             ("ram_slots_total", some (.int 0)),
             ("ram_slots_used", some (.int 0)),
             ("ram_slots_available", some (.int 0))]
    | _ :: _ => []

/-- `detect_memory`.  The reads of `ram_slots_total` / `ram_soldered`
in the source refer to keys assigned earlier in this same method (no
earlier probe writes them), so they are mirrored by local values. -/
def detectMemoryUpd (dmiMemory meminfo : String) : List (String × Option Value) :=
  let formFactors := reFindAllCapture "Form Factor:" dmiMemory
  let emptySlots : Nat := reCountLit "Size:" "No Module Installed" dmiMemory
  let installedFfs := (formFactors.filter (fun ff => !strContains ff "No Module")).map pyStrip
  let slotsOpt := reSearchNatUnit "Number Of Devices:" "" dmiMemory
  let totalSlots : Nat := slotsOpt.getD 0
  [("dmidecode_memory", some (.str dmiMemory)),
   ("ram_size_gb", ramSizeGbVal dmiMemory meminfo),
   ("ram_type", (reSearchDDR dmiMemory).map (fun t => .str (pyStrip t))),
   ("ram_speed", (reSearchNatUnit "Speed:" "MT/s" dmiMemory).map
      (fun n => .str (toString n ++ " MHz"))),
   ("max_ram_capacity_gb", (reSearchNatGbMb "Maximum Capacity:" dmiMemory).map
      (fun p => .int (if p.2 then (p.1 : Int) else ((p.1 / 1024 : Nat) : Int)))),
   ("ram_slots_total", slotsOpt.map (fun n => .int n))]
  ++ memFormFactorUpd installedFfs
  ++ memSlotsUpd installedFfs totalSlots emptySlots

/-- Model of the floating-point square root used for screen diagonals
(`(w**2 + h**2) ** 0.5`): integer square root at 6 decimal digits. -/
def pySqrtRat (n : Nat) : Rat :=
  ratDiv ((Nat.sqrt (n * 10 ^ 12) : Nat) : Rat) (powTen 6)

def mmToInches (wmm hmm2 : Nat) : Rat :=
  pyRoundTo (ratDiv (pySqrtRat (wmm * wmm + hmm2 * hmm2)) (mkRat 254 10)) 1

def cmToInches (wcm hcm : Nat) : Rat :=
  pyRoundTo (ratDiv (pySqrtRat (wcm * wcm + hcm * hcm)) (mkRat 254 100)) 1

/-- Touchscreen scan of `xinput list` output. -/
def hasTouchscreenIn (xinputOut : String) : Bool :=
  (pySplitOn xinputOut "\n").any (fun line =>
    strContains (pyLower line) "touch" && !strContains (pyLower line) "touchpad")

/-- `detect_display`: `resMatch`, `sizeMm`, `edidCm` stand for the
results of the resolution / millimetre / centimetre regex searches. -/
def detectDisplayUpd (xrandrRaises : Bool) (xrandrOut : String)
    (resMatch sizeMm : Option (Nat × Nat)) (edidOut : Option String)
    (edidCm : Option (Nat × Nat)) (xinputRaises : Bool) (xinputOut : String) :
    List (String × Option Value) :=
  (if xrandrRaises then []
   else
     [("xrandr", some (.str xrandrOut)),
      ("screen_resolution", resMatch.map
         (fun p => .str (toString p.1 ++ " x " ++ toString p.2))),
      ("screen_size_inches", sizeMm.bind (fun p =>
         if p.1 > 0 && p.2 > 0 then some (.rat (mmToInches p.1 p.2)) else Option.none))])
  ++ (match edidOut with
      | some ed =>
          [("edid", some (.str ed)),
           ("screen_size_inches", edidCm.map (fun p => .rat (cmToInches p.1 p.2)))]
      | Option.none => [])
  ++ (if xinputRaises then [("has_touchscreen", some Value.null)]
      else
        [("xinput", some (.str xinputOut)),
         ("has_touchscreen", some (.bool (hasTouchscreenIn xinputOut)))])

/-! ### `detect_graphics` -/

/-- The suffix test for `(?:\s*\(rev.*\))?$` inside a single
(newline-free) lspci line. -/
def revTailOk (r : List Char) : Bool :=
  let t := r.dropWhile Char.isWhitespace
  lstart t "(rev".data &&
    (match t.getLast? with
     | some c => c == ')'
     | Option.none => false) &&
    decide (t.length ≥ 5)

/-- Lazy capture for `(.+?)(?:\s*\(rev.*\))?$`: the shortest nonempty
prefix whose remainder is empty or a `(rev ...)` tail. -/
def capLoop (taken : List Char) : List Char → Option String
  | [] => Option.none
  | c :: rs =>
      let t := taken ++ [c]
      if rs.isEmpty || revTailOk rs then some (String.mk t) else capLoop t rs

/-- Position parser for
`(?:VGA compatible controller|3D controller):\s*(.+?)(?:\s*\(rev.*\))?$`. -/
def pGpuText (s : List Char) : Option String :=
  let after := fun (rest : List Char) =>
    let t := rest.dropWhile Char.isWhitespace
    if t.isEmpty then Option.none else capLoop [] t
  match labelThen "VGA compatible controller:".data after s with
  | some r => some r
  | Option.none => labelThen "3D controller:".data after s

def gpuTextOf (line : String) : Option String :=
  scanFor pGpuText line.data

/-- Everything between the first `[` and the first matching later `]`
(at least one character apart): `re.search(r"\[(.+?)\]", s)`. -/
def firstRBSplit : List Char → Option (List Char × List Char)
  | [] => Option.none
  | c :: rs =>
      if c == ']' then some ([], rs)
      else (firstRBSplit rs).map (fun p => (c :: p.1, p.2))

def bracketMatchL : List Char → Option String
  | [] => Option.none
  | c :: rest =>
      if c == '[' then
        match rest with
        | [] => Option.none
        | c2 :: rs =>
            match firstRBSplit rs with
            | some (pre, _) => some (String.mk (c2 :: pre))
            | Option.none => bracketMatchL rest
      else bracketMatchL rest

def bracketMatch (s : String) : Option String :=
  bracketMatchL s.data

/-- `f"{vendor} {bracket}"` when the bracket capture strips nonempty,
else the full controller text (the detector's branch bodies). -/
def detectorGpuName (pre : String) (br : Option String) (gt : String) : Value :=
  match br with
  | some b => if pyStrip b ≠ "" then .str (pre ++ b) else .str gt
  | Option.none => .str gt

/-- One iteration of the GPU model extraction loop. -/
def gpuLineUpd (line : String) : List (String × Option Value) :=
  let low := pyLower line
  match gpuTextOf line with
  | Option.none => []
  | some gt0 =>
      let gt := pyStrip gt0
      let br := bracketMatch gt
      if strContains low "intel" then
        [("integrated_gpu_model", some (detectorGpuName "Intel " br gt))]
      else if strContains low "amd" && strContains low "vega" then
        [("integrated_gpu_model", some (detectorGpuName "AMD " br gt))]
      else if strContains low "nvidia" then
        [("dedicated_gpu_model", some (detectorGpuName "NVIDIA " br gt))]
      else if strContains low "amd" && strContains low "radeon" && strContains low "rx" then
        [("dedicated_gpu_model", some (detectorGpuName "AMD " br gt))]
      else []

/-- `[line for line in lspci.split("\n") if "VGA" in line or "3D controller" in line]`. -/
def gpuLinesOf (lspci : String) : List String :=
  (pySplitOn lspci "\n").filter
    (fun line => strContains line "VGA" || strContains line "3D controller")

def detectGraphicsUpd (lspci : String) : List (String × Option Value) :=
  let glines := gpuLinesOf lspci
  let hasNvidia := glines.any (fun l => strContains (pyLower l) "nvidia")
  let hasAmdDiscrete := glines.any
    (fun l => strContains (pyLower l) "amd" && strContains (pyLower l) "radeon")
  let hasIntel := glines.any (fun l => strContains (pyLower l) "intel")
  [("lspci", some (.str lspci)),
   ("gpus", if !glines.isEmpty then some (.list (glines.map .str)) else Option.none),
   ("gpu_type",
     if !glines.isEmpty then
       (if hasNvidia || hasAmdDiscrete then some (.str "Dedicated or Discrete GPU")
        else if hasIntel then some (.str "Integrated GPU") else Option.none)
     else Option.none)]
  ++ (if !glines.isEmpty then (glines.map gpuLineUpd).flatten else [])

/-! ### `detect_storage` -/

structure StorageDev where
  device : String
  size : String
  dtype : String
  deriving Repr, BEq

/-- `re.match(r"([\d.]+)([KMGT])", size)` followed by the fixed
multiplier table (`K`/`M` ↦ 0.001, `G` ↦ 1, `T` ↦ 1000), giving GB. -/
def sizeGbOf (s : String) : Option Rat :=
  let cs := s.data
  let run := cs.takeWhile (fun c => c.isDigit || c == '.')
  if run.isEmpty then Option.none
  else
    match cs.drop run.length with
    | u :: _ =>
        let mult : Option Rat :=
          if u == 'K' then some (mkRat 1 1000)
          else if u == 'M' then some (mkRat 1 1000)
          else if u == 'G' then some (mkRat 1 1)
          else if u == 'T' then some (mkRat 1000 1)
          else Option.none
        match mult, pyFloat (String.mk run) with
        | some m, some v => some (ratMul v m)
        | _, _ => Option.none
    | [] => Option.none

/-- One line of `lsblk -d -o NAME,SIZE,TYPE,ROTA` output: a `disk` row
is kept unless it is removable or parses to under 32 GB. -/
def lsblkEntry (removable : String → Bool) (line : String) : Option StorageDev :=
  match pySplitWs line with
  | name :: size :: typ :: rota :: _ =>
      if typ == "disk" then
        match sizeGbOf size with
        | some g =>
            if removable name || decide (g < 32) then Option.none
            else some { device := name, size := size,
                        dtype := if rota == "1" then "HDD" else "SSD" }
        | Option.none =>
            some { device := name, size := size,
                   dtype := if rota == "1" then "HDD" else "SSD" }
      else Option.none
  | _ => Option.none

def storageDevicesOf (removable : String → Bool) (lsblk : String) : List StorageDev :=
  ((pySplitOn lsblk "\n").drop 1).filterMap (lsblkEntry removable)

/-- The SSD/HDD capacity accumulation loop. -/
def storageTotals (devs : List StorageDev) : Rat × Rat :=
  devs.foldl (fun acc d =>
    match sizeGbOf d.size with
    | some g =>
        if d.dtype == "SSD" then (ratAdd acc.1 g, acc.2) else (acc.1, ratAdd acc.2 g)
    | Option.none => acc) (0, 0)

def storageDevValue (d : StorageDev) : Value :=
  .dict [("device", .str d.device), ("size", .str d.size), ("type", .str d.dtype)]

def detectStorageUpd (lsblk : String) (removable : String → Bool)
    (emmcCount : Option Nat) (lspciStorage : Option String) :
    List (String × Option Value) :=
  let devs := storageDevicesOf removable lsblk
  let totals := storageTotals devs
  let hasEmmc : Bool :=
    match emmcCount with
    | some n => decide (0 < n)
    | Option.none => false
  let ctrl : Option String :=
    match lspciStorage with
    | some s =>
        if s ≠ "" then
          let low := pyLower s
          some (if strContains low "nvme" || strContains low "non-volatile memory" then "NVMe"
                else if strContains low "emmc" || strContains low "mmc" then "eMMC"
                else if strContains low "sata" then "SATA"
                else if strContains low "ahci" then "SATA (AHCI)"
                else "Unknown")
        else Option.none
    | Option.none => Option.none
  [("lsblk", some (.str lsblk)),
   ("storage_devices", some (.list (devs.map storageDevValue))),
   ("ssd_capacity_gb", if totals.1 > 0 then some (.int (pyRound totals.1)) else Option.none),
   ("hdd_capacity_gb", if totals.2 > 0 then some (.int (pyRound totals.2)) else Option.none),
   ("has_emmc_storage", some (.bool hasEmmc)),
   ("lspci_storage",
     match lspciStorage with
     | some s => if s ≠ "" then some (.str (pyStrip s)) else Option.none
     | Option.none => Option.none),
   ("storage_controller_type", ctrl.map .str),
   ("storage_soldered_confidence", some (.str
      (if hasEmmc then "confirmed_soldered"
       else if ctrl == some "NVMe" then
         "unknown - M.2 SSD detected, could be socketed or soldered"
       else if ctrl == some "SATA" || ctrl == some "SATA (AHCI)" then
         "likely_removable - SATA interface typically uses removable drives"
       else if totals.1 == 0 && totals.2 == 0 then "no_storage_detected"
       else "unknown")))]

/-! ### `detect_battery`, `detect_network`, `detect_usb_ports`,
`detect_webcam` -/

/-- `detect_battery`: `voltMatch` / `energyMatch` / `chargeFull` stand
for the voltage, `energy-full` and `POWER_SUPPLY_CHARGE_FULL` regex
results; a missing voltage defaults to 11.1 V. -/
def detectBatteryUpd (upowerOut : String) (voltMatch energyMatch : Option Rat)
    (acpiOut : String) (batterySys : Option String) (chargeFull : Option Nat) :
    List (String × Option Value) :=
  [("upower", some (.str upowerOut)),
   ("battery_capacity_mah", energyMatch.map (fun wh =>
      .int (pyRound (ratDiv (ratMul wh (mkRat 1000 1))
        (voltMatch.getD (mkRat 111 10)))))),
   ("acpi", some (.str acpiOut))]
  ++ (match batterySys with
      | some bs =>
          [("battery_sys", some (.str bs)),
           ("battery_capacity_mah", chargeFull.map (fun uah =>
              .int (pyRound (ratDiv ((uah : Nat) : Rat) (mkRat 1000 1)))))]
      | Option.none => [])

def detectNetworkUpd (lspciNet iwconfigOut hciconfigOut : String) :
    List (String × Option Value) :=
  let low := pyLower lspciNet
  [("lspci_network", some (.str lspciNet))]
  ++ (if strContains low "wireless" || strContains low "wi-fi" ||
         strContains low "wifi" || strContains low "network controller" then
        [("has_wifi", some (.bool true)),
         ("wifi_standard",
           if strContains iwconfigOut "IEEE 802.11" then
             some (.str "802.11a/b/g/n/ac")
           else Option.none)]
      else [("has_wifi", some (.bool false))])
  ++ (if strContains (pyLower lspciNet) "ethernet" then
        [("has_ethernet", some (.bool true))]
      else [])
  ++ (if strContains hciconfigOut "hci0" then
        [("has_bluetooth", some (.bool true))]
      else [])

def detectUsbUpd (lsusbOut : String) (usbPortCount : Option Nat) :
    List (String × Option Value) :=
  [("lsusb", some (.str lsusbOut)),
   ("usb_port_count", usbPortCount.map (fun n => .int n))]

def detectWebcamUpd (videoDevCount : Option Nat) : List (String × Option Value) :=
  [("has_webcam", some (.bool
     (match videoDevCount with
      | some n => decide (0 < n)
      | Option.none => false)))]

/-! ### `detect_all` -/

/-- The outside world of one detection run: command outputs, `try`
outcomes, and (for display/battery) the regex match results. -/
structure DetectEnv where
  dmiSystem : String
  dmiBios : String
  dmiChassis : String
  lscpuOut : String
  dmiProcessor : String
  dmiMemory : String
  meminfo : String
  xrandrRaises : Bool
  xrandrOut : String
  resMatch : Option (Nat × Nat)
  sizeMm : Option (Nat × Nat)
  edidOut : Option String
  edidCm : Option (Nat × Nat)
  xinputRaises : Bool
  xinputOut : String
  lspciOut : String
  lsblkOut : String
  removable : String → Bool
  emmcCount : Option Nat
  lspciStorage : Option String
  upowerOut : String
  voltMatch : Option Rat
  energyMatch : Option Rat
  acpiOut : String
  batterySys : Option String
  chargeFull : Option Nat
  lspciNet : String
  iwconfigOut : String
  hciconfigOut : String
  lsusbOut : String
  usbPortCount : Option Nat
  videoDevCount : Option Nat

def detectAllUpd (e : DetectEnv) : List (String × Option Value) :=
  detectSystemInfoUpd e.dmiSystem e.dmiBios e.dmiChassis ++
  detectProcessorUpd e.lscpuOut e.dmiProcessor ++
  detectMemoryUpd e.dmiMemory e.meminfo ++
  detectDisplayUpd e.xrandrRaises e.xrandrOut e.resMatch e.sizeMm
    e.edidOut e.edidCm e.xinputRaises e.xinputOut ++
  detectGraphicsUpd e.lspciOut ++
  detectStorageUpd e.lsblkOut e.removable e.emmcCount e.lspciStorage ++
  detectBatteryUpd e.upowerOut e.voltMatch e.energyMatch e.acpiOut
    e.batterySys e.chargeFull ++
  detectNetworkUpd e.lspciNet e.iwconfigOut e.hciconfigOut ++
  detectUsbUpd e.lsusbOut e.usbPortCount ++
  detectWebcamUpd e.videoDevCount

/-- `detect_all`: the raw bag produced by one full detection run. -/
def detect_all (e : DetectEnv) : Bag :=
  applyUpdates [] (detectAllUpd e)

/-! ## `map_to_bestbuy_fields` -/

/-- The full attribute dictionary built by `map_to_bestbuy_fields`
before pruning: missing raw fields default to the empty string. -/
def bestbuyEntries (raw : Bag) : List (String × Value) :=
  [("BBYCat", .str "Computers/Laptops"),
   ("shop_sku", .str ("SKU-" ++ pyStr (raw.getD "sku" (.str "UNKNOWN")))),
   ("_Brand_Name_Category_Root_EN", raw.getD "brand" (.str "")),
   ("_Model_Number_Category_Root_EN", raw.getD "model" (.str "")),
   ("_ProcessorType_3885_CAT_1002_EN", raw.getD "cpu_model" (.str "")),
   ("_ProcessorSpeed_3886_CAT_1002_EN",
     raw.getD "cpu_max_ghz" (raw.getD "cpu_speed_ghz" (.str ""))),
   ("_ProcessorCores_23322_CAT_1002_EN", raw.getD "cpu_cores" (.str "")),
   ("_ProcessorCache_3897_CAT_1002_EN", raw.getD "cpu_l3_cache" (.str "")),
   ("_RAMSize_9685909_CAT_1002_EN", raw.getD "ram_size_gb" (.str "")),
   ("_RAMType_24674_CAT_1002_EN", .str
     (pyStr (raw.getD "ram_size_gb" (.str "")) ++ " GB " ++
      pyStr (raw.getD "ram_type" (.str "")) ++ " " ++
      pyStr (raw.getD "ram_speed" (.str "")))),
   ("_SolidStateDriveCapacity_4085597_CAT_1002_EN", raw.getD "ssd_capacity_gb" (.str "")),
   ("_HardDiskDriveCapacity_4085566_CAT_1002_EN", raw.getD "hdd_capacity_gb" (.str "")),
   ("_ScreenSize_3914_CAT_1002_EN", raw.getD "screen_size_inches" (.str "")),
   ("_NativeScreenResolution_15195_CAT_1002_EN", raw.getD "screen_resolution" (.str "")),
   ("_ScreenResolution_25959883_CAT_1002_EN", raw.getD "screen_resolution" (.str "")),
   ("_TouchscreenDisplay_23335_CAT_1002_EN", .str
     (if pyTruthy (raw.getD "has_touchscreen" Value.null) then "Yes" else "No")),
   ("_GraphicsCard_15196_CAT_1002_EN", raw.getD "gpu_model" (.str "")),
   ("_GraphicsProcessingUnitType_22765592_CAT_1002_EN", raw.getD "gpu_type" (.str "")),
   ("_BatteryCapacity_15253_CAT_1002_EN", raw.getD "battery_capacity_mah" (.str "")),
   ("_IntegratedWiFi_15245_CAT_1002_EN", .str
     (if pyTruthy (raw.getD "has_wifi" Value.null) then "Yes" else "No")),
   ("_IntegratedBluetooth_15246_CAT_1002_EN", .str
     (if pyTruthy (raw.getD "has_bluetooth" Value.null) then "Yes" else "No")),
   ("_EthernetPort_6605_CAT_1002_EN", .str
     (if pyTruthy (raw.getD "has_ethernet" Value.null) then "Yes" else "No")),
   ("_Webcam_15213_CAT_1002_EN", .str
     (if pyTruthy (raw.getD "has_webcam" Value.null) then "Yes" else "No"))]

/-- `map_to_bestbuy_fields`: build the fixed dictionary, then drop
every entry with a falsy value
(`{k: v for k, v in self.bestbuy_data.items() if v}`). -/
def map_to_bestbuy_fields (raw : Bag) : List (String × Value) :=
  (bestbuyEntries raw).filter (fun p => pyTruthy p.2)

/-! ## `prompt_manual_fields` -/

/-- Operator console input of one run. -/
structure PromptEnv where
  screenInput : String
  kbChoice : String
  backlitInput : String
  touchInput : String
  convertibleInput : String
  colorInput : String
  conditionChoice : String

/-- The updates `prompt_manual_fields` makes to `raw_data`: screen size
when missing or zero (invalid numeric input defaults to 14.0) and
touchscreen when auto-detection failed (`is None`). -/
def promptRaw (u : PromptEnv) (raw : Bag) : Bag :=
  let raw1 :=
    if !(pyTruthy (raw.getD "screen_size_inches" Value.null)) ||
       pyEq (raw.getD "screen_size_inches" Value.null) (.int 0) then
      raw.set "screen_size_inches" (.rat ((pyFloat (pyStrip u.screenInput)).getD 14))
    else raw
  if (raw1.getD "has_touchscreen" Value.null).isNull then
    raw1.set "has_touchscreen" (.bool (pyLower (pyStrip u.touchInput) == "y"))
  else raw1

/-- The updates `prompt_manual_fields` makes to `bestbuy_data`. -/
def promptBb (u : PromptEnv) (bb : Bag) : Bag :=
  let kb :=
    if pyStrip u.kbChoice == "1" then "English"
    else if pyStrip u.kbChoice == "2" then "French"
    else if pyStrip u.kbChoice == "3" then "Bilingual"
    else "English"
  let cond :=
    if pyStrip u.conditionChoice == "1" then "Brand New"
    else if pyStrip u.conditionChoice == "2" then "Open Box"
    else if pyStrip u.conditionChoice == "3" then "Refurbished Excellent"
    else if pyStrip u.conditionChoice == "4" then "Refurbished Good"
    else if pyStrip u.conditionChoice == "5" then "Refurbished Fair"
    else "Brand New"
  ((((bb.set "_KeyboardLanguage_24678_CAT_1002_EN" (.str kb)).set
      "_BacklitKeyboard_24680_CAT_1002_EN"
      (.str (if pyLower (pyStrip u.backlitInput) == "y" then "Yes" else "No"))).set
      "_ConvertibleHybridDisplay_36185_CAT_1002_EN"
      (.str (if pyLower (pyStrip u.convertibleInput) == "y" then "Yes" else "No"))).set
      "_Colour_5105_CAT_1002_EN" (.str (pyStrip u.colorInput))).set
      "_ProductCondition_20257570_CAT_1002_EN" (.str cond)

/-! ## The uploader (`supabase_uploader.py`) -/

/-- The fast-path test of `extract_integrated_gpu`:
`"gpu_model" in raw_data and raw_data.get("gpu_type") == "Integrated GPU"`. -/
def gpuFastPathIntegrated (raw : Bag) : Bool :=
  raw.hasKey "gpu_model" &&
    pyEq (raw.getD "gpu_type" Value.null) (.str "Integrated GPU")

/-- The fast-path test of `extract_dedicated_gpu`. -/
def gpuFastPathDedicated (raw : Bag) : Bool :=
  raw.hasKey "gpu_model" &&
    pyEq (raw.getD "gpu_type" Value.null) (.str "Dedicated or Discrete GPU")

/-- The shared branch body of the uploader's fallback parsing: bracket
capture with a vendor tag, else the text after `controller:` up to a
parenthesis. -/
def uploaderGpuFromLine (pre : String) (line : String) : Option String :=
  match bracketMatch line with
  | some b => some (pre ++ b)
  | Option.none =>
      let parts := pySplitOn line "controller:"
      if parts.length > 1 then
        some (pyStrip ((pySplitOn (pyStrip ((parts.get? 1).getD "")) "(").headD ""))
      else Option.none

/-- One loop iteration of `extract_integrated_gpu`'s fallback: the
Intel test, falling through to the AMD/Vega test on the same line. -/
def intGpuLineResult (line : String) : Option String :=
  let low := pyLower line
  let r1 :=
    if strContains low "intel" &&
       (strContains low "uhd" || strContains low "iris" ||
        strContains low "hd graphics") then
      uploaderGpuFromLine "Intel " line
    else Option.none
  match r1 with
  | some r => some r
  | Option.none =>
      if strContains low "amd" && strContains low "radeon" && strContains low "vega" then
        uploaderGpuFromLine "AMD " line
      else Option.none

/-- One loop iteration of `extract_dedicated_gpu`'s fallback. -/
def dedGpuLineResult (line : String) : Option String :=
  let low := pyLower line
  let r1 := if strContains low "nvidia" then uploaderGpuFromLine "NVIDIA " line else Option.none
  match r1 with
  | some r => some r
  | Option.none =>
      if strContains low "amd" && strContains low "radeon" && strContains low "rx" then
        uploaderGpuFromLine "AMD " line
      else Option.none

/-- The string lines of the `gpus` value (the detector only ever stores
a list of strings there). -/
def gpusStrings : Value → List String
  | .list l => l.filterMap (fun v =>
      match v with
      | .str s => some s
      | _ => Option.none)
  | _ => []

/-- `extract_integrated_gpu` (returns `Value.null` for Python `None`). -/
def extract_integrated_gpu (raw : Bag) : Value :=
  if gpuFastPathIntegrated raw then raw.getD "gpu_model" Value.null
  else if raw.hasKey "gpus" && pyTruthy (raw.getD "gpus" Value.null) then
    match (gpusStrings (raw.getD "gpus" Value.null)).findSome? intGpuLineResult with
    | some r => .str r
    | Option.none => Value.null
  else Value.null

/-- `extract_dedicated_gpu`. -/
def extract_dedicated_gpu (raw : Bag) : Value :=
  if gpuFastPathDedicated raw then raw.getD "gpu_model" Value.null
  else if raw.hasKey "gpus" && pyTruthy (raw.getD "gpus" Value.null) then
    match (gpusStrings (raw.getD "gpus" Value.null)).findSome? dedGpuLineResult with
    | some r => .str r
    | Option.none => Value.null
  else Value.null

/-- `has_dedicated_gpu`. -/
def has_dedicated_gpu (raw : Bag) : Bool :=
  !(extract_dedicated_gpu raw).isNull

/-! ### The remote database model

Rows mirror the dictionaries the uploader sends; the remote side is
modelled by a shared id counter and a SKU generator, and every remote
call carries a flag saying whether it raises (any remote error
propagates out of `upload_to_database` unchanged). -/

/-- The unique-constraint fields of a `laptop_models` row, exactly the
dictionary `model_data` built by `upload_to_database`. -/
structure ModelFields where
  base_model_name : Value
  cpu_model : Value
  screen_size_inches : Value
  has_touchscreen : Bool
  integrated_gpu_model : Value
  dedicated_gpu_model : Value
  deriving Repr, BEq

structure ModelRow where
  id : Nat
  fields : ModelFields
  deriving Repr, BEq

/-- `model_data` as built from the raw bag and the mapped attributes. -/
def modelDataOf (raw bb : Bag) : ModelFields :=
  { base_model_name := raw.getD "model" (.str "Unknown Model"),
    cpu_model := raw.getD "cpu_model" (.str "Unknown CPU"),
    screen_size_inches := raw.getD "screen_size_inches" Value.null,
    has_touchscreen :=
      pyEq (bb.getD "_TouchscreenDisplay_23335_CAT_1002_EN" Value.null) (.str "Yes"),
    integrated_gpu_model := extract_integrated_gpu raw,
    dedicated_gpu_model := extract_dedicated_gpu raw }

/-- PostgREST `.eq` filter semantics: SQL equality, which never matches
a NULL on either side (`Value.null` models SQL NULL). -/
def sqlEq (a b : Value) : Bool :=
  !a.isNull && !b.isNull && pyEq a b

/-- The existence query of step 1: `.eq` on the four non-null fields,
and `.is_`/`.eq` on the two nullable GPU columns depending on whether
the submitted value is `None` (null-aware matching). -/
def modelMatches (md : ModelFields) (row : ModelFields) : Bool :=
  sqlEq row.base_model_name md.base_model_name &&
  sqlEq row.cpu_model md.cpu_model &&
  sqlEq row.screen_size_inches md.screen_size_inches &&
  (row.has_touchscreen == md.has_touchscreen) &&
  (if md.integrated_gpu_model.isNull then row.integrated_gpu_model.isNull
   else sqlEq row.integrated_gpu_model md.integrated_gpu_model) &&
  (if md.dedicated_gpu_model.isNull then row.dedicated_gpu_model.isNull
   else sqlEq row.dedicated_gpu_model md.dedicated_gpu_model)

/-- A `laptop_hardware_data` row (`hardware_data` dictionary). -/
structure HardwareRow where
  model_id : Nat
  brand : Value
  model : Value
  manufacturer_sku : Value
  cpu_speed_ghz : Value
  cpu_cores : Value
  cpu_cache : Value
  ram_type : Value
  screen_resolution : Value
  has_touchscreen : Bool
  integrated_gpu_model : Value
  dedicated_gpu_model : Value
  has_dedicated_gpu : Bool
  has_wifi : Value
  has_bluetooth : Value
  has_ethernet : Value
  has_webcam : Value
  raw_detection_json : Bag

def hardwareDataOf (mid : Nat) (raw bb : Bag) : HardwareRow :=
  { model_id := mid,
    brand := raw.getD "brand" Value.null,
    model := raw.getD "model" Value.null,
    manufacturer_sku := raw.getD "sku" Value.null,
    cpu_speed_ghz :=
      if pyTruthy (raw.getD "cpu_max_ghz" Value.null) then raw.getD "cpu_max_ghz" Value.null
      else raw.getD "cpu_speed_ghz" Value.null,
    cpu_cores := raw.getD "cpu_cores" Value.null,
    cpu_cache := raw.getD "cpu_l3_cache" Value.null,
    ram_type := raw.getD "ram_type" Value.null,
    screen_resolution := raw.getD "screen_resolution" Value.null,
    has_touchscreen :=
      pyEq (bb.getD "_TouchscreenDisplay_23335_CAT_1002_EN" Value.null) (.str "Yes"),
    integrated_gpu_model := extract_integrated_gpu raw,
    dedicated_gpu_model := extract_dedicated_gpu raw,
    has_dedicated_gpu := has_dedicated_gpu raw,
    has_wifi := raw.getD "has_wifi" (.bool false),
    has_bluetooth := raw.getD "has_bluetooth" (.bool false),
    has_ethernet := raw.getD "has_ethernet" (.bool false),
    has_webcam := raw.getD "has_webcam" (.bool false),
    raw_detection_json := raw }

structure VariantRow where
  id : Nat
  model_id : Nat
  ram_size_gb : Int
  ssd_capacity_gb : Value
  price : Value
  shop_sku : String
  deriving Repr, BEq

structure InventoryRow where
  model_id : Nat
  inventory_count : Int
  damaged_count : Int
  deriving Repr, BEq

structure ManualRow where
  variant_id : Nat
  payload : List (String × Value)
  deriving Repr, BEq

structure Db where
  models : List ModelRow
  hardware : List HardwareRow
  variants : List VariantRow
  laptops : List InventoryRow
  manualFields : List ManualRow
  nextId : Nat

/-- The dictionary returned by `upload_to_database`. -/
structure UploadResult where
  model_id : Nat
  variant_id : Option Nat
  shop_sku : Option String
  status : String
  message : String
  deriving Repr, BEq

/-- Outcome flags of the individual remote calls, plus the remote-side
SKU generator for inserted variants. -/
structure Remote where
  failModelSelect : Bool
  failModelInsert : Bool
  failHardwareUpsert : Bool
  failVariantSelect : Bool
  failVariantInsert : Bool
  failInventoryUpsert : Bool
  failManualUpsert : Bool
  skuGen : Nat → String

/-- `upsert(..., on_conflict="model_id")` on `laptop_hardware_data`. -/
def upsertHardware (rows : List HardwareRow) (r : HardwareRow) : List HardwareRow :=
  if rows.any (fun x => x.model_id == r.model_id) then
    rows.map (fun x => if x.model_id == r.model_id then r else x)
  else rows ++ [r]

/-- `upsert(..., on_conflict="model_id")` on `laptops`. -/
def upsertInventory (rows : List InventoryRow) (r : InventoryRow) : List InventoryRow :=
  if rows.any (fun x => x.model_id == r.model_id) then
    rows.map (fun x => if x.model_id == r.model_id then r else x)
  else rows ++ [r]

/-- `upsert(..., on_conflict="variant_id")` on `laptop_manual_fields`. -/
def upsertManual (rows : List ManualRow) (r : ManualRow) : List ManualRow :=
  if rows.any (fun x => x.variant_id == r.variant_id) then
    rows.map (fun x => if x.variant_id == r.variant_id then r else x)
  else rows ++ [r]

/-- `int(raw_data.get("ram_size_gb", 0))`. -/
def ramGbOf (raw : Bag) : Int :=
  pyIntTrunc (raw.getD "ram_size_gb" (.int 0))

/-- `raw_data.get("ssd_capacity_gb", 0)`. -/
def ssdGbOf (raw : Bag) : Value :=
  raw.getD "ssd_capacity_gb" (.int 0)

/-- The `.match({...})` filter of the variant existence check. -/
def variantMatches (mid : Nat) (ramGb : Int) (ssdGb : Value) (v : VariantRow) : Bool :=
  v.model_id == mid && v.ram_size_gb == ramGb && sqlEq v.ssd_capacity_gb ssdGb

/-- `manual_fields_data` after dropping `None` values; `variant_id` and
the two booleans are never `None`, so it always has more than one
entry. -/
def manualPayload (vid : Nat) (bb : Bag) : List (String × Value) :=
  ([("variant_id", Value.int (vid : Int)),
    ("keyboard_language", bb.getD "_KeyboardLanguage_24678_CAT_1002_EN" Value.null),
    ("backlit_keyboard", Value.bool
      (pyEq (bb.getD "_BacklitKeyboard_24680_CAT_1002_EN" Value.null) (.str "Yes"))),
    ("convertible_hybrid", Value.bool
      (pyEq (bb.getD "_ConvertibleHybridDisplay_36185_CAT_1002_EN" Value.null) (.str "Yes"))),
    ("colour", bb.getD "_Colour_5105_CAT_1002_EN" Value.null),
    ("product_condition", bb.getD "_ProductCondition_20257570_CAT_1002_EN" Value.null)]
  ).filter (fun p => !p.2.isNull)

def uploadSuccessMsg : String :=
  "Successfully created model, hardware data, variant, inventory, and manual fields."

def uploadExistsMsg : String :=
  "Model already exists in database. No changes made."

/-- Steps 4 and 5 of `upload_to_database` (inventory upsert, manual
fields upsert), shared by the existing-variant and new-variant paths. -/
def afterVariantSteps (rem : Remote) (db : Db) (bb : Bag) (mid vid : Nat)
    (sku : String) : Except String UploadResult × Db :=
  if rem.failInventoryUpsert then (.error "inventory upsert failed", db)
  else
    let invRow : InventoryRow :=
      { model_id := mid, inventory_count := 0, damaged_count := 0 }
    let db4 := { db with laptops := upsertInventory db.laptops invRow }
    let payload := manualPayload vid bb
    let okRes : UploadResult :=
      { model_id := mid, variant_id := some vid, shop_sku := some sku,
        status := "created", message := uploadSuccessMsg }
    if payload.length > 1 then
      if rem.failManualUpsert then (.error "manual fields upsert failed", db4)
      else
        let manRow : ManualRow := { variant_id := vid, payload := payload }
        (.ok okRes, { db4 with manualFields := upsertManual db4.manualFields manRow })
    else
      (.ok okRes, db4)

/-- `upload_to_database`: the sequential existence-check/insert chain.
A failing call raises (`.error`), leaving all earlier writes in place
(no rollback) and performing none of the later ones. -/
def upload_to_database (rem : Remote) (db : Db) (raw bb : Bag) :
    Except String UploadResult × Db :=
  let md := modelDataOf raw bb
  if rem.failModelSelect then (.error "model select failed", db)
  else
    match db.models.find? (fun r => modelMatches md r.fields) with
    | some r =>
        (.ok { model_id := r.id, variant_id := Option.none, shop_sku := Option.none,
               status := "exists", message := uploadExistsMsg }, db)
    | Option.none =>
        if rem.failModelInsert then (.error "model insert failed", db)
        else
          let mid := db.nextId
          let newModel : ModelRow := { id := mid, fields := md }
          let db1 := { db with models := db.models ++ [newModel], nextId := db.nextId + 1 }
          if rem.failHardwareUpsert then (.error "hardware data insert failed", db1)
          else
            let db2 := { db1 with hardware := upsertHardware db1.hardware (hardwareDataOf mid raw bb) }
            if rem.failVariantSelect then (.error "variant select failed", db2)
            else
              match db2.variants.find? (variantMatches mid (ramGbOf raw) (ssdGbOf raw)) with
              | some v => afterVariantSteps rem db2 bb mid v.id v.shop_sku
              | Option.none =>
                  if rem.failVariantInsert then (.error "variant insert failed", db2)
                  else
                    let vid := db2.nextId
                    let sku := rem.skuGen vid
                    let newVariant : VariantRow :=
                      { id := vid, model_id := mid, ram_size_gb := ramGbOf raw,
                        ssd_capacity_gb := ssdGbOf raw, price := Value.null,
                        shop_sku := sku }
                    let db3 := { db2 with variants := db2.variants ++ [newVariant], nextId := db2.nextId + 1 }
                    afterVariantSteps rem db3 bb mid vid sku

/-! ## `load_secrets` and the upload branch of `main` -/

/-- Python exception kinds relevant to `load_secrets` / `main`.
`json.JSONDecodeError` is a subclass of `ValueError` in Python, so it
counts as a `ValueError` for `except ValueError` handlers. -/
inductive PyErr where
  | fileNotFound : String → PyErr
  | valueError : String → PyErr
  | jsonDecodeError : String → PyErr
  deriving Repr, BEq

def PyErr.isValueError : PyErr → Bool
  | .valueError _ => true
  | .jsonDecodeError _ => true
  | .fileNotFound _ => false

def PyErr.isFileNotFound : PyErr → Bool
  | .fileNotFound _ => true
  | _ => false

/-- The secrets file as seen by `load_secrets`: whether it exists, and
the outcome of `json.load` on it when it does. -/
structure SecretsFile where
  present : Bool
  parsed : Except String (List (String × Value))

def requiredSecrets : List String := ["supabase_url", "supabase_anon_key"]

/-- `load_secrets`: missing file raises `FileNotFoundError`; a file
that fails to parse propagates `json.JSONDecodeError` (a `ValueError`);
missing required keys raise `ValueError`; otherwise the parsed
dictionary is returned unchanged. -/
def load_secrets (fs : SecretsFile) : Except PyErr (List (String × Value)) :=
  if !fs.present then .error (.fileNotFound "Secrets file not found: secrets.json")
  else
    match fs.parsed with
    | .error m => .error (.jsonDecodeError m)
    | .ok secrets =>
        let missing := requiredSecrets.filter (fun k => !(secrets.any (fun p => p.1 == k)))
        if !missing.isEmpty then
          .error (.valueError ("Missing required secrets: " ++ pyJoin ", " missing))
        else .ok secrets

/-- `save_results`: the two JSON files written
(`laptop_hardware_data.json` and its `_bestbuy_only` variant). -/
def saveResultsFiles (outputFile : String) : List String :=
  [outputFile, pyReplace outputFile ".json" "_bestbuy_only.json"]

/-- Outcome of the `--upload` branch of `main`: the database after the
run, the printed upload result if any, and the local JSON files written
as fallback. -/
structure MainOut where
  db : Db
  result : Option UploadResult
  files : List String

/-- The `--upload` branch of `main`: every `except` handler
(`FileNotFoundError`, `ValueError`, bare `Exception`) calls
`detector.save_results()`, so any load or upload error ends in the
two-file local fallback. -/
def mainUploadBranch (fs : SecretsFile) (rem : Remote) (db : Db) (raw bb : Bag) :
    MainOut :=
  match load_secrets fs with
  | .error _ =>
      { db := db, result := Option.none,
        files := saveResultsFiles "laptop_hardware_data.json" }
  | .ok _ =>
      match upload_to_database rem db raw bb with
      | (.error _, db2) =>
          { db := db2, result := Option.none,
            files := saveResultsFiles "laptop_hardware_data.json" }
      | (.ok r, db2) => { db := db2, result := some r, files := [] }

/-! ## Generic lemmas about update replay and attribute lookup -/

theorem applyUpdates_cons (b : Bag) (u : String × Option Value)
    (us : List (String × Option Value)) :
    applyUpdates b (u :: us) = applyUpdates (applyUpd b u) us := rfl

theorem applyUpdates_append (b : Bag) (xs ys : List (String × Option Value)) :
    applyUpdates b (xs ++ ys) = applyUpdates (applyUpdates b xs) ys := by
  simp [applyUpdates, List.foldl_append]

/-- The value the update list leaves under key `k`: the last executed
assignment to `k`, if any. -/
def lastSetValue : List (String × Option Value) → String → Option Value
  | [], _ => Option.none
  | u :: us, k =>
      match lastSetValue us k with
      | some v => some v
      | Option.none => if u.1 == k then u.2 else Option.none

theorem lastSetValue_append (xs ys : List (String × Option Value)) (k : String) :
    lastSetValue (xs ++ ys) k =
      match lastSetValue ys k with
      | some v => some v
      | Option.none => lastSetValue xs k := by
  induction xs with
  | nil =>
      simp only [List.nil_append]
      cases h : lastSetValue ys k <;> simp [h, lastSetValue]
  | cons u us ih =>
      simp only [List.cons_append, lastSetValue, List.append_eq]
      rw [ih]
      cases h : lastSetValue ys k <;> cases h2 : lastSetValue us k <;> simp [h, h2]

theorem lastSetValue_none_of_ne (us : List (String × Option Value)) (k : String)
    (h : ∀ u ∈ us, u.1 ≠ k) : lastSetValue us k = Option.none := by
  induction us with
  | nil => rfl
  | cons u us ih =>
      have hk : (u.1 == k) = false := by
        simpa using h u (List.mem_cons_self u us)
      simp [lastSetValue, ih (fun x hx => h x (List.mem_cons_of_mem u hx)), hk]

/-- Replaying an update list, the resulting binding for `k` is its last
assignment, or the original binding if `k` is never assigned. -/
theorem get?_applyUpdates (us : List (String × Option Value)) (b : Bag) (k : String) :
    (applyUpdates b us).get? k =
      match lastSetValue us k with
      | some v => some v
      | Option.none => b.get? k := by
  induction us generalizing b with
  | nil => rfl
  | cons u us ih =>
      rw [applyUpdates_cons, ih]
      cases hl : lastSetValue us k with
      | some v => simp [lastSetValue, hl]
      | none =>
          simp only [lastSetValue, hl]
          by_cases hk : u.1 = k
          · cases ho : u.2 with
            | some v =>
                subst hk
                simp [applyUpd, ho, Bag.get?_set_self]
            | none => simp [applyUpd, ho, hk]
          · have hkb : (u.1 == k) = false := by simpa using hk
            cases ho : u.2 with
            | some v => simp [applyUpd, ho, hkb, Bag.get?_set_ne _ _ _ _ hk]
            | none => simp [applyUpd, ho, hkb]

theorem get?_applyUpdates_ne (us : List (String × Option Value)) (b : Bag) (k : String)
    (h : ∀ u ∈ us, u.1 ≠ k) : (applyUpdates b us).get? k = b.get? k := by
  rw [get?_applyUpdates, lastSetValue_none_of_ne us k h]

/-- Both branch values of the Yes/No attributes are truthy. -/
theorem yesNoTruthy (c : Bool) :
    pyTruthy (.str (if c then "Yes" else "No")) = true := by
  cases c <;> rfl

/-- Looking up a key whose unique entries all hold a fixed truthy
Yes/No value survives the pruning filter. -/
theorem lookup_filter_yesno (l : List (String × Value)) (k : String) (c : Bool)
    (hmem : ∀ v, (k, v) ∈ l → v = .str (if c then "Yes" else "No"))
    (hk : ∃ v, (k, v) ∈ l) :
    (l.filter (fun p => pyTruthy p.2)).lookup k =
      some (.str (if c then "Yes" else "No")) := by
  induction l with
  | nil => rcases hk with ⟨v, hv⟩; cases hv
  | cons x rest ih =>
      obtain ⟨a, v⟩ := x
      by_cases hak : k = a
      · subst hak
        have hv : v = .str (if c then "Yes" else "No") :=
          hmem v (List.mem_cons_self _ _)
        subst hv
        simp [List.filter_cons, yesNoTruthy, List.lookup]
      · have hkb : (k == a) = false := by simpa using hak
        have ih2 := ih
          (fun w hw => hmem w (List.mem_cons_of_mem _ hw))
          (by
            rcases hk with ⟨w, hw⟩
            rcases List.mem_cons.mp hw with h | h
            · exact absurd (congrArg Prod.fst h) (by simpa using hak)
            · exact ⟨w, h⟩)
        cases hp : pyTruthy v <;>
          simp [List.filter_cons, hp, List.lookup, hkb, ih2]

/-- A key all of whose entries are falsy is pruned entirely. -/
theorem lookup_filter_none (l : List (String × Value)) (k : String)
    (h : ∀ v, (k, v) ∈ l → pyTruthy v = false) :
    (l.filter (fun p => pyTruthy p.2)).lookup k = Option.none := by
  induction l with
  | nil => rfl
  | cons x rest ih =>
      obtain ⟨a, v⟩ := x
      have ih2 := ih (fun w hw => h w (List.mem_cons_of_mem _ hw))
      by_cases hak : k = a
      · subst hak
        have hv : pyTruthy v = false := h v (List.mem_cons_self _ _)
        simp [List.filter_cons, hv, ih2]
      · have hkb : (k == a) = false := by simpa using hak
        cases hp : pyTruthy v <;>
          simp [List.filter_cons, hp, List.lookup, hkb, ih2]

/-- Specification of the first-wins fold implementing Python `min` with
an absolute-distance key: the result is the seed or a list element, and
its distance is minimal among all of them. -/
theorem foldlMinDist_spec (raw : Rat) (l : List Nat) (x : Nat) :
    (l.foldl (fun (best y : Nat) =>
        if |(y : Rat) - raw| < |(best : Rat) - raw| then y else best) x = x ∨
     l.foldl (fun (best y : Nat) =>
        if |(y : Rat) - raw| < |(best : Rat) - raw| then y else best) x ∈ l) ∧
    (∀ c, (c = x ∨ c ∈ l) →
      |((l.foldl (fun (best y : Nat) =>
          if |(y : Rat) - raw| < |(best : Rat) - raw| then y else best) x : Nat) : Rat) - raw|
        ≤ |(c : Rat) - raw|) := by
  induction l generalizing x with
  | nil =>
      refine ⟨Or.inl rfl, ?_⟩
      rintro c (rfl | hc)
      · exact le_refl _
      · cases hc
  | cons y ys ih =>
      have step : ∀ x : Nat,
          (y :: ys).foldl (fun (best z : Nat) =>
            if |(z : Rat) - raw| < |(best : Rat) - raw| then z else best) x =
          ys.foldl (fun (best z : Nat) =>
            if |(z : Rat) - raw| < |(best : Rat) - raw| then z else best)
            (if |(y : Rat) - raw| < |(x : Rat) - raw| then y else x) := by
        intro x; rfl
      constructor
      · rw [step]
        rcases (ih (if |(y : Rat) - raw| < |(x : Rat) - raw| then y else x)).1 with h | h
        · rw [h]
          by_cases hyx : |(y : Rat) - raw| < |(x : Rat) - raw|
          · simp [hyx]
          · simp [hyx]
        · exact Or.inr (List.mem_cons_of_mem _ h)
      · intro c hc
        rw [step]
        have hseed := (ih (if |(y : Rat) - raw| < |(x : Rat) - raw| then y else x)).2
        rcases hc with rfl | hc
        · calc _ ≤ |((if |(y : Rat) - raw| < |(c : Rat) - raw| then y else c : Nat) : Rat) - raw| :=
                hseed _ (Or.inl rfl)
            _ ≤ |(c : Rat) - raw| := by
                by_cases hyx : |(y : Rat) - raw| < |(c : Rat) - raw|
                · simp only [if_pos hyx]; exact le_of_lt hyx
                · simp only [if_neg hyx]; exact le_refl _
        · rcases List.mem_cons.mp hc with rfl | hc
          · calc _ ≤ |((if |(c : Rat) - raw| < |(x : Rat) - raw| then c else x : Nat) : Rat) - raw| :=
                  hseed _ (Or.inl rfl)
              _ ≤ |(c : Rat) - raw| := by
                  by_cases hyx : |(c : Rat) - raw| < |(x : Rat) - raw|
                  · simp only [if_pos hyx]; exact le_refl _
                  · simp only [if_neg hyx]; exact le_of_not_lt hyx
          · exact hseed c (Or.inr hc)

/-! ## Claims about the mapper -/

/-- C4: for every raw bag, every marketplace attribute whose source
value is falsy (missing raw fields having defaulted to the empty
string) is absent from the final mapped attribute set: everything that
survives `map_to_bestbuy_fields` is truthy, and every falsy entry of
the pre-pruning dictionary is dropped. -/
theorem c4_empty_fields_pruned (raw : Bag) :
    (∀ k v, (k, v) ∈ map_to_bestbuy_fields raw → pyTruthy v = true) ∧
    (∀ k v, (k, v) ∈ bestbuyEntries raw → pyTruthy v = false →
       (k, v) ∉ map_to_bestbuy_fields raw) := by
  constructor
  · intro k v hm
    exact (List.mem_filter.mp hm).2
  · intro k v _ hfal hm
    have h2 := (List.mem_filter.mp hm).2
    simp [hfal] at h2

theorem c4_witness :
    pyTruthy (Value.str "Computers/Laptops") = true ∧
    ("_GraphicsCard_15196_CAT_1002_EN", Value.str "") ∉ map_to_bestbuy_fields [] := by
  refine ⟨(c4_empty_fields_pruned []).1 "BBYCat" _ (List.Mem.head _), ?_⟩
  refine (c4_empty_fields_pruned []).2 "_GraphicsCard_15196_CAT_1002_EN" (Value.str "") ?_ rfl
  repeat first
    | exact List.Mem.head _
    | apply List.Mem.tail

/-- C10: the five boolean-derived marketplace attributes (touchscreen,
WiFi, Bluetooth, Ethernet, webcam) are always present in the mapped
attribute set with value `"Yes"` or `"No"` (so they survive
empty-field pruning), and an absent or `None` raw flag yields `"No"`. -/
theorem c10_yes_no_attributes (raw : Bag) :
    ((map_to_bestbuy_fields raw).lookup "_TouchscreenDisplay_23335_CAT_1002_EN" =
      some (.str (if pyTruthy (raw.getD "has_touchscreen" Value.null) then "Yes" else "No"))) ∧
    ((map_to_bestbuy_fields raw).lookup "_IntegratedWiFi_15245_CAT_1002_EN" =
      some (.str (if pyTruthy (raw.getD "has_wifi" Value.null) then "Yes" else "No"))) ∧
    ((map_to_bestbuy_fields raw).lookup "_IntegratedBluetooth_15246_CAT_1002_EN" =
      some (.str (if pyTruthy (raw.getD "has_bluetooth" Value.null) then "Yes" else "No"))) ∧
    ((map_to_bestbuy_fields raw).lookup "_EthernetPort_6605_CAT_1002_EN" =
      some (.str (if pyTruthy (raw.getD "has_ethernet" Value.null) then "Yes" else "No"))) ∧
    ((map_to_bestbuy_fields raw).lookup "_Webcam_15213_CAT_1002_EN" =
      some (.str (if pyTruthy (raw.getD "has_webcam" Value.null) then "Yes" else "No"))) ∧
    (raw.get? "has_touchscreen" = Option.none ∨ raw.get? "has_touchscreen" = some Value.null →
      (map_to_bestbuy_fields raw).lookup "_TouchscreenDisplay_23335_CAT_1002_EN" =
        some (.str "No")) ∧
    (raw.get? "has_wifi" = Option.none ∨ raw.get? "has_wifi" = some Value.null →
      (map_to_bestbuy_fields raw).lookup "_IntegratedWiFi_15245_CAT_1002_EN" =
        some (.str "No")) ∧
    (raw.get? "has_bluetooth" = Option.none ∨ raw.get? "has_bluetooth" = some Value.null →
      (map_to_bestbuy_fields raw).lookup "_IntegratedBluetooth_15246_CAT_1002_EN" =
        some (.str "No")) ∧
    (raw.get? "has_ethernet" = Option.none ∨ raw.get? "has_ethernet" = some Value.null →
      (map_to_bestbuy_fields raw).lookup "_EthernetPort_6605_CAT_1002_EN" =
        some (.str "No")) ∧
    (raw.get? "has_webcam" = Option.none ∨ raw.get? "has_webcam" = some Value.null →
      (map_to_bestbuy_fields raw).lookup "_Webcam_15213_CAT_1002_EN" =
        some (.str "No")) := by
  have touch := lookup_filter_yesno (bestbuyEntries raw)
    "_TouchscreenDisplay_23335_CAT_1002_EN"
    (pyTruthy (raw.getD "has_touchscreen" Value.null))
    (by intro v hv; simp [bestbuyEntries] at hv; exact hv)
    ⟨.str (if pyTruthy (raw.getD "has_touchscreen" Value.null) then "Yes" else "No"),
     by simp [bestbuyEntries]⟩
  have wifi := lookup_filter_yesno (bestbuyEntries raw)
    "_IntegratedWiFi_15245_CAT_1002_EN"
    (pyTruthy (raw.getD "has_wifi" Value.null))
    (by intro v hv; simp [bestbuyEntries] at hv; exact hv)
    ⟨.str (if pyTruthy (raw.getD "has_wifi" Value.null) then "Yes" else "No"),
     by simp [bestbuyEntries]⟩
  have bt := lookup_filter_yesno (bestbuyEntries raw)
    "_IntegratedBluetooth_15246_CAT_1002_EN"
    (pyTruthy (raw.getD "has_bluetooth" Value.null))
    (by intro v hv; simp [bestbuyEntries] at hv; exact hv)
    ⟨.str (if pyTruthy (raw.getD "has_bluetooth" Value.null) then "Yes" else "No"),
     by simp [bestbuyEntries]⟩
  have eth := lookup_filter_yesno (bestbuyEntries raw)
    "_EthernetPort_6605_CAT_1002_EN"
    (pyTruthy (raw.getD "has_ethernet" Value.null))
    (by intro v hv; simp [bestbuyEntries] at hv; exact hv)
    ⟨.str (if pyTruthy (raw.getD "has_ethernet" Value.null) then "Yes" else "No"),
     by simp [bestbuyEntries]⟩
  have cam := lookup_filter_yesno (bestbuyEntries raw)
    "_Webcam_15213_CAT_1002_EN"
    (pyTruthy (raw.getD "has_webcam" Value.null))
    (by intro v hv; simp [bestbuyEntries] at hv; exact hv)
    ⟨.str (if pyTruthy (raw.getD "has_webcam" Value.null) then "Yes" else "No"),
     by simp [bestbuyEntries]⟩
  refine ⟨touch, wifi, bt, eth, cam, ?_, ?_, ?_, ?_, ?_⟩
  · intro h
    have hz : raw.getD "has_touchscreen" Value.null = Value.null := by
      rcases h with h | h <;> simp [Bag.getD, h]
    rw [hz] at touch
    exact touch
  · intro h
    have hz : raw.getD "has_wifi" Value.null = Value.null := by
      rcases h with h | h <;> simp [Bag.getD, h]
    rw [hz] at wifi
    exact wifi
  · intro h
    have hz : raw.getD "has_bluetooth" Value.null = Value.null := by
      rcases h with h | h <;> simp [Bag.getD, h]
    rw [hz] at bt
    exact bt
  · intro h
    have hz : raw.getD "has_ethernet" Value.null = Value.null := by
      rcases h with h | h <;> simp [Bag.getD, h]
    rw [hz] at eth
    exact eth
  · intro h
    have hz : raw.getD "has_webcam" Value.null = Value.null := by
      rcases h with h | h <;> simp [Bag.getD, h]
    rw [hz] at cam
    exact cam

theorem c10_witness :
    (map_to_bestbuy_fields []).lookup "_TouchscreenDisplay_23335_CAT_1002_EN" =
      some (.str "No") ∧
    (map_to_bestbuy_fields []).lookup "_Webcam_15213_CAT_1002_EN" =
      some (.str "No") := by
  obtain ⟨h1, h2, h3, h4, h5, h6, h7, h8, h9, h10⟩ := c10_yes_no_attributes []
  exact ⟨h6 (Or.inl rfl), h10 (Or.inl rfl)⟩


/-! ## Claims about `detect_storage` -/

/-- The lsblk output of the C2 scenario: two non-removable disks of
size `256G` and `1T`, both non-rotational (SSD). -/
def c2Lsblk : String := "NAME SIZE TYPE ROTA\nsda 256G disk 0\nnvme0n1 1T disk 0"

/-- C2 counterexample: with devices `256G` and `1T` (both kept, both
SSD), `detect_storage` does **not** record 1280 GB: the fixed
multipliers are `G ↦ 1` and `T ↦ 1000`, so the total is 1256. -/
theorem c2_counterexample :
    (applyUpdates [] (detectStorageUpd c2Lsblk (fun _ => false)
        Option.none Option.none)).get? "ssd_capacity_gb" ≠
      some (.int 1280) := by
  rw [show (applyUpdates [] (detectStorageUpd c2Lsblk (fun _ => false)
        Option.none Option.none)).get? "ssd_capacity_gb" = some (.int 1256) from rfl]
  simp

/-- C2 amended: both devices are kept and classified SSD, and the
byte-prefix conversion (`G ↦ 1`, `T ↦ 1000`) makes 256G plus 1T sum to
1256 GB, which is what `detect_storage` records. -/
theorem c2_ssd_total_1256 :
    storageDevicesOf (fun _ => false) c2Lsblk =
      [{ device := "sda", size := "256G", dtype := "SSD" },
       { device := "nvme0n1", size := "1T", dtype := "SSD" }] ∧
    sizeGbOf "256G" = some (mkRat 256 1) ∧
    sizeGbOf "1T" = some (mkRat 1000 1) ∧
    storageTotals (storageDevicesOf (fun _ => false) c2Lsblk) = (mkRat 1256 1, 0) ∧
    (applyUpdates [] (detectStorageUpd c2Lsblk (fun _ => false)
        Option.none Option.none)).get? "ssd_capacity_gb" = some (.int 1256) :=
  ⟨rfl, rfl, rfl, rfl, rfl⟩

/-- C8: a parsed `disk` row that is removable or converts to less than
32 GB contributes no entry to the device list (and hence nothing to
the capacity totals, which are computed over that list); consequently
every stored device with a parsable size is non-removable and at least
32 GB. -/
theorem c8_small_or_removable_excluded :
    (∀ (removable : String → Bool) (line name size typ rota : String)
        (restParts : List String) (g : Rat),
        pySplitWs line = name :: size :: typ :: rota :: restParts →
        typ = "disk" →
        sizeGbOf size = some g →
        (removable name = true ∨ g < 32) →
        lsblkEntry removable line = Option.none) ∧
    (∀ (removable : String → Bool) (lsblk : String) (d : StorageDev),
        d ∈ storageDevicesOf removable lsblk →
        ∀ g, sizeGbOf d.size = some g →
        removable d.device = false ∧ 32 ≤ g) := by
  constructor
  · intro removable line name size typ rota restParts g hsplit htyp hg hcond
    subst htyp
    have hdec : (removable name || decide (g < 32)) = true := by
      rcases hcond with h | h
      · simp [h]
      · simp [decide_eq_true h]
    unfold lsblkEntry
    rw [hsplit]
    simp [hg, hdec]
  · intro removable lsblk d hd g hg
    obtain ⟨line, _hl, hline⟩ := List.mem_filterMap.mp hd
    unfold lsblkEntry at hline
    split at hline
    case h_2 => exact absurd hline (by simp)
    case h_1 =>
      split at hline
      · split at hline
        · -- size parsed to some g2
          split at hline
          · exact absurd hline (by simp)
          · -- kept: d is the record
            rename_i g2 heq hcond
            injection hline with hline
            subst hline
            simp only at hg ⊢
            rw [heq] at hg
            injection hg with hg
            rw [hg] at hcond
            simp only [Bool.or_eq_true, not_or] at hcond
            push_neg at hcond
            refine ⟨?_, ?_⟩
            · simpa using hcond.1
            · have := hcond.2
              have h2 : ¬(g < 32) := by simpa using this
              exact le_of_not_lt h2
        · -- size did not parse, but hg says it does: contradiction
          rename_i heq
          injection hline with hline
          subst hline
          simp only at hg
          rw [heq] at hg
          cases hg
      · exact absurd hline (by simp)

theorem c8_witness :
    pySplitWs "sdb 16G disk 0" = ["sdb", "16G", "disk", "0"] ∧
    sizeGbOf "16G" = some (mkRat 16 1) ∧
    lsblkEntry (fun _ => true) "sdb 16G disk 0" = Option.none ∧
    lsblkEntry (fun _ => false) "sdb 16G disk 0" = Option.none := by
  refine ⟨rfl, rfl, ?_, ?_⟩
  · exact c8_small_or_removable_excluded.1 (fun _ => true) "sdb 16G disk 0"
      "sdb" "16G" "disk" "0" [] (mkRat 16 1) rfl rfl rfl (Or.inl rfl)
  · exact c8_small_or_removable_excluded.1 (fun _ => false) "sdb 16G disk 0"
      "sdb" "16G" "disk" "0" [] (mkRat 16 1) rfl rfl rfl (Or.inr (by norm_num))

/-! ## Claims about `detect_memory` -/

/-- The first-wins minimising fold of `closestStandardSize` picks an
element of the candidate list at minimal absolute distance. -/
theorem closestStandardSize_spec (raw : Rat) :
    closestStandardSize raw ∈ standardRamSizes ∧
    ∀ c ∈ standardRamSizes,
      |(closestStandardSize raw : ℚ) - raw| ≤ |(c : ℚ) - raw| := by
  have hfun : (fun (best y : Nat) =>
      if ratAbs (ratSub (y : Rat) raw) < ratAbs (ratSub (best : Rat) raw)
      then y else best)
      = (fun (best y : Nat) =>
      if |(y : Rat) - raw| < |(best : Rat) - raw| then y else best) := by
    funext best y
    simp only [ratAbs_eq_abs, ratSub_eq_sub]
  have h := foldlMinDist_spec raw [4, 6, 8, 12, 16, 24, 32, 48, 64, 96, 128, 192, 256] 2
  have hc : closestStandardSize raw =
      List.foldl (fun (best y : Nat) =>
        if |(y : Rat) - raw| < |(best : Rat) - raw| then y else best) 2
        [4, 6, 8, 12, 16, 24, 32, 48, 64, 96, 128, 192, 256] := by
    unfold closestStandardSize
    rw [hfun]
  constructor
  · rw [hc]
    rcases h.1 with h1 | h1
    · rw [h1]; simp [standardRamSizes]
    · simp only [standardRamSizes]
      exact List.mem_cons_of_mem _ h1
  · intro c hcm
    rw [hc]
    apply h.2
    simpa [standardRamSizes] using hcm

theorem memFormFactorUpd_no_ram_size (ffs : List String) :
    ∀ u ∈ memFormFactorUpd ffs, u.1 ≠ "ram_size_gb" := by
  intro u hu
  cases ffs with
  | nil => cases hu
  | cons ff0 rest => fin_cases hu <;> simp

theorem memSlotsUpd_no_ram_size (ffs : List String) (ts es : Nat) :
    ∀ u ∈ memSlotsUpd ffs ts es, u.1 ≠ "ram_size_gb" := by
  intro u hu
  unfold memSlotsUpd at hu
  split at hu
  · fin_cases hu <;> simp
  · cases ffs with
    | nil => fin_cases hu <;> simp
    | cons ff0 rest => cases hu

/-- C6: when no per-module physical RAM size was obtained and
`MemTotal` parsed to `kb` kilobytes, `detect_memory` stores as
`ram_size_gb` the entry of the fixed candidate list nearest to the raw
total `kb / 2^20` GB (first entry wins ties); in particular a raw
total of 7.5 GB (7864320 kB) snaps to 8. -/
theorem c6_ram_snapping (dmiMemory meminfo : String) (kb : Nat)
    (hphys : physicalRamGb dmiMemory = Option.none)
    (hkb : reSearchNatUnit "MemTotal:" "kB" meminfo = some kb) :
    (∀ b : Bag, (applyUpdates b (detectMemoryUpd dmiMemory meminfo)).get? "ram_size_gb" =
        some (.int (closestStandardSize (ratDiv (kb : Rat) (mkRat (1024 * 1024) 1))))) ∧
    ratDiv (kb : Rat) (mkRat (1024 * 1024) 1) = (kb : ℚ) / (1024 * 1024) ∧
    closestStandardSize (ratDiv (kb : Rat) (mkRat (1024 * 1024) 1)) ∈ standardRamSizes ∧
    (∀ c ∈ standardRamSizes,
      |(closestStandardSize (ratDiv (kb : Rat) (mkRat (1024 * 1024) 1)) : ℚ) -
          ratDiv (kb : Rat) (mkRat (1024 * 1024) 1)|
        ≤ |(c : ℚ) - ratDiv (kb : Rat) (mkRat (1024 * 1024) 1)|) ∧
    (kb = 7864320 →
      closestStandardSize (ratDiv (kb : Rat) (mkRat (1024 * 1024) 1)) = 8) := by
  have hval : ramSizeGbVal dmiMemory meminfo =
      some (.int (closestStandardSize (ratDiv (kb : Rat) (mkRat (1024 * 1024) 1)))) := by
    simp [ramSizeGbVal, memGbRaw, hkb, hphys]
  refine ⟨?_, ?_, (closestStandardSize_spec _).1, (closestStandardSize_spec _).2, ?_⟩
  · intro b
    rw [get?_applyUpdates]
    simp only [detectMemoryUpd]
    rw [lastSetValue_append]
    rw [lastSetValue_none_of_ne _ _ (memSlotsUpd_no_ram_size _ _ _)]
    rw [lastSetValue_append]
    rw [lastSetValue_none_of_ne _ _ (memFormFactorUpd_no_ram_size _)]
    simp [lastSetValue, hval]
  · rw [ratDiv_eq_div, Rat.mkRat_eq_div]
    norm_num
  · intro h
    subst h
    rfl

/-- The dmidecode memory table of the witness run: one memory-device
section with no module installed, so no physical size is collected. -/
def c6Dmi : String := "Handle 0x003C\nMemory Device\n\tSize: No Module Installed\n"

def c6Mem : String := "MemTotal: 7864320 kB"

theorem c6_witness :
    (applyUpdates [] (detectMemoryUpd c6Dmi c6Mem)).get? "ram_size_gb" =
      some (.int 8) := by
  obtain ⟨h1, _h2, _h3, _h4, h5⟩ := c6_ram_snapping c6Dmi c6Mem 7864320 rfl rfl
  rw [h1 [], h5 rfl]
  rfl

/-! ## C7: GPU type precedence -/

/-- The per-line GPU model loop never assigns `gpu_type`. -/
theorem gpuLineUpd_not_gpu_type (line : String) :
    ∀ u ∈ gpuLineUpd line, u.1 ≠ "gpu_type" := by
  intro u hu
  simp only [gpuLineUpd] at hu
  split at hu
  · cases hu
  · split at hu
    · fin_cases hu <;> simp
    · split at hu
      · fin_cases hu <;> simp
      · split at hu
        · fin_cases hu <;> simp
        · split at hu
          · fin_cases hu <;> simp
          · cases hu

/-- C7: over the detected GPU lines, a NVIDIA or AMD+Radeon vendor match
on any line forces `gpu_type = "Dedicated or Discrete GPU"` (regardless of
Intel matches), and `gpu_type = "Integrated GPU"` occurs exactly when no
such dedicated match exists but some line matches Intel. -/
theorem c7_gpu_type_precedence (lspci : String) (b : Bag)
    (hb : b.get? "gpu_type" = Option.none) :
    ((∃ l ∈ gpuLinesOf lspci,
        strContains (pyLower l) "nvidia" = true ∨
        (strContains (pyLower l) "amd" = true ∧
         strContains (pyLower l) "radeon" = true)) →
      (applyUpdates b (detectGraphicsUpd lspci)).get? "gpu_type" =
        some (.str "Dedicated or Discrete GPU")) ∧
    ((applyUpdates b (detectGraphicsUpd lspci)).get? "gpu_type" =
        some (.str "Integrated GPU") →
      (¬ ∃ l ∈ gpuLinesOf lspci,
          strContains (pyLower l) "nvidia" = true ∨
          (strContains (pyLower l) "amd" = true ∧
           strContains (pyLower l) "radeon" = true)) ∧
      ∃ l ∈ gpuLinesOf lspci, strContains (pyLower l) "intel" = true) := by
  have hkeys : ∀ u ∈ (if !(gpuLinesOf lspci).isEmpty then
      ((gpuLinesOf lspci).map gpuLineUpd).flatten
      else ([] : List (String × Option Value))), u.1 ≠ "gpu_type" := by
    intro u hu
    split at hu
    · rw [List.mem_flatten] at hu
      obtain ⟨lu, hlu, hu2⟩ := hu
      rw [List.mem_map] at hlu
      obtain ⟨line, _, rfl⟩ := hlu
      exact gpuLineUpd_not_gpu_type line u hu2
    · cases hu
  constructor
  · rintro ⟨l, hl, hcase⟩
    have hne : (gpuLinesOf lspci).isEmpty = false := by
      cases hgl : gpuLinesOf lspci with
      | nil => rw [hgl] at hl; cases hl
      | cons x xs => rfl
    have hded : (((gpuLinesOf lspci).any fun l => strContains (pyLower l) "nvidia") ||
        ((gpuLinesOf lspci).any fun l =>
          strContains (pyLower l) "amd" && strContains (pyLower l) "radeon")) = true := by
      simp only [Bool.or_eq_true, List.any_eq_true]
      rcases hcase with h | ⟨h1, h2⟩
      · exact Or.inl ⟨l, hl, h⟩
      · exact Or.inr ⟨l, hl, by simp [h1, h2]⟩
    rw [get?_applyUpdates]
    simp only [detectGraphicsUpd]
    rw [lastSetValue_append, lastSetValue_none_of_ne _ _ hkeys]
    simp [lastSetValue, hne, hded]
  · intro hres
    rw [get?_applyUpdates] at hres
    simp only [detectGraphicsUpd] at hres
    rw [lastSetValue_append, lastSetValue_none_of_ne _ _ hkeys] at hres
    by_cases hne : (gpuLinesOf lspci).isEmpty = true
    · exfalso
      simp [lastSetValue, hne, hb] at hres
    · have hne' : (gpuLinesOf lspci).isEmpty = false := by simpa using hne
      by_cases hded : (((gpuLinesOf lspci).any fun l => strContains (pyLower l) "nvidia") ||
          ((gpuLinesOf lspci).any fun l =>
            strContains (pyLower l) "amd" && strContains (pyLower l) "radeon")) = true
      · exfalso
        simp [lastSetValue, hne', hded] at hres
      · have hded' : (((gpuLinesOf lspci).any fun l => strContains (pyLower l) "nvidia") ||
            ((gpuLinesOf lspci).any fun l =>
              strContains (pyLower l) "amd" && strContains (pyLower l) "radeon")) = false := by
          simpa using hded
        by_cases hint : ((gpuLinesOf lspci).any fun l => strContains (pyLower l) "intel") = true
        · refine ⟨?_, ?_⟩
          · intro hex
            apply hded
            obtain ⟨l, hl, hcase⟩ := hex
            simp only [Bool.or_eq_true, List.any_eq_true]
            rcases hcase with h | ⟨h1, h2⟩
            · exact Or.inl ⟨l, hl, h⟩
            · exact Or.inr ⟨l, hl, by simp [h1, h2]⟩
          · exact List.any_eq_true.mp hint
        · exfalso
          have hint' : ((gpuLinesOf lspci).any fun l =>
              strContains (pyLower l) "intel") = false := by
            simpa using hint
          simp [lastSetValue, hne', hded', hint', hb] at hres

def c7Lspci : String :=
  "00:02.0 VGA compatible controller: Intel Corporation UHD Graphics\n01:00.0 3D controller: NVIDIA Corporation GP108M"

theorem c7_witness :
    (applyUpdates [] (detectGraphicsUpd c7Lspci)).get? "gpu_type" =
      some (.str "Dedicated or Discrete GPU") := by
  refine (c7_gpu_type_precedence c7Lspci [] rfl).1 ?_
  refine ⟨"01:00.0 3D controller: NVIDIA Corporation GP108M", ?_, Or.inl rfl⟩
  rw [show gpuLinesOf c7Lspci =
    ["00:02.0 VGA compatible controller: Intel Corporation UHD Graphics",
     "01:00.0 3D controller: NVIDIA Corporation GP108M"] from rfl]
  exact List.mem_cons_of_mem _ (List.mem_cons_self _ _)

/-! ## C3: `gpu_model` is never populated -/

theorem detectSystemInfoUpd_no_gpu_model (a b c : String) :
    ∀ x ∈ detectSystemInfoUpd a b c, x.1 ≠ "gpu_model" := by
  intro x hx
  simp only [detectSystemInfoUpd] at hx
  fin_cases hx <;> simp

theorem detectProcessorUpd_no_gpu_model (a b : String) :
    ∀ x ∈ detectProcessorUpd a b, x.1 ≠ "gpu_model" := by
  intro x hx
  simp only [detectProcessorUpd] at hx
  fin_cases hx <;> simp

theorem memFormFactorUpd_no_gpu_model (ffs : List String) :
    ∀ x ∈ memFormFactorUpd ffs, x.1 ≠ "gpu_model" := by
  intro x hx
  cases ffs with
  | nil => cases hx
  | cons ff0 rest => fin_cases hx <;> simp

theorem memSlotsUpd_no_gpu_model (ffs : List String) (ts es : Nat) :
    ∀ x ∈ memSlotsUpd ffs ts es, x.1 ≠ "gpu_model" := by
  intro x hx
  unfold memSlotsUpd at hx
  split at hx
  · fin_cases hx <;> simp
  · cases ffs with
    | nil => fin_cases hx <;> simp
    | cons ff0 rest => cases hx

theorem detectMemoryUpd_no_gpu_model (a b : String) :
    ∀ x ∈ detectMemoryUpd a b, x.1 ≠ "gpu_model" := by
  intro x hx
  simp only [detectMemoryUpd, List.mem_append] at hx
  rcases hx with (hx | hx) | hx
  · fin_cases hx <;> simp
  · exact memFormFactorUpd_no_gpu_model _ x hx
  · exact memSlotsUpd_no_gpu_model _ _ _ x hx

theorem detectDisplayUpd_no_gpu_model (xr : Bool) (xo : String)
    (rm sm : Option (Nat × Nat)) (eo : Option String) (ec : Option (Nat × Nat))
    (xir : Bool) (xio : String) :
    ∀ x ∈ detectDisplayUpd xr xo rm sm eo ec xir xio, x.1 ≠ "gpu_model" := by
  intro x hx
  simp only [detectDisplayUpd, List.mem_append] at hx
  rcases hx with (hx | hx) | hx
  · split at hx
    · cases hx
    · fin_cases hx <;> simp
  · split at hx
    · fin_cases hx <;> simp
    · cases hx
  · split at hx
    · fin_cases hx <;> simp
    · fin_cases hx <;> simp

theorem gpuLineUpd_no_gpu_model (line : String) :
    ∀ x ∈ gpuLineUpd line, x.1 ≠ "gpu_model" := by
  intro x hx
  simp only [gpuLineUpd] at hx
  split at hx
  · cases hx
  · split at hx
    · fin_cases hx <;> simp
    · split at hx
      · fin_cases hx <;> simp
      · split at hx
        · fin_cases hx <;> simp
        · split at hx
          · fin_cases hx <;> simp
          · cases hx

theorem detectGraphicsUpd_no_gpu_model (lspci : String) :
    ∀ x ∈ detectGraphicsUpd lspci, x.1 ≠ "gpu_model" := by
  intro x hx
  simp only [detectGraphicsUpd, List.mem_append] at hx
  rcases hx with hx | hx
  · fin_cases hx <;> simp
  · split at hx
    · rw [List.mem_flatten] at hx
      obtain ⟨lu, hlu, hx2⟩ := hx
      rw [List.mem_map] at hlu
      obtain ⟨line, _, rfl⟩ := hlu
      exact gpuLineUpd_no_gpu_model line x hx2
    · cases hx

theorem detectStorageUpd_no_gpu_model (lsblk : String) (rem : String → Bool)
    (ec : Option Nat) (ls : Option String) :
    ∀ x ∈ detectStorageUpd lsblk rem ec ls, x.1 ≠ "gpu_model" := by
  intro x hx
  simp only [detectStorageUpd] at hx
  fin_cases hx <;> simp

theorem detectBatteryUpd_no_gpu_model (uo : String) (vm em : Option Rat)
    (ao : String) (bs : Option String) (cf : Option Nat) :
    ∀ x ∈ detectBatteryUpd uo vm em ao bs cf, x.1 ≠ "gpu_model" := by
  intro x hx
  simp only [detectBatteryUpd, List.mem_append] at hx
  rcases hx with hx | hx
  · fin_cases hx <;> simp
  · split at hx
    · fin_cases hx <;> simp
    · cases hx

theorem detectNetworkUpd_no_gpu_model (a b c : String) :
    ∀ x ∈ detectNetworkUpd a b c, x.1 ≠ "gpu_model" := by
  intro x hx
  simp only [detectNetworkUpd, List.mem_append] at hx
  rcases hx with ((hx | hx) | hx) | hx
  · fin_cases hx <;> simp
  · split at hx
    · fin_cases hx <;> simp
    · fin_cases hx <;> simp
  · split at hx
    · fin_cases hx <;> simp
    · cases hx
  · split at hx
    · fin_cases hx <;> simp
    · cases hx

theorem detectUsbUpd_no_gpu_model (a : String) (n : Option Nat) :
    ∀ x ∈ detectUsbUpd a n, x.1 ≠ "gpu_model" := by
  intro x hx
  simp only [detectUsbUpd] at hx
  fin_cases hx <;> simp

theorem detectWebcamUpd_no_gpu_model (n : Option Nat) :
    ∀ x ∈ detectWebcamUpd n, x.1 ≠ "gpu_model" := by
  intro x hx
  simp only [detectWebcamUpd] at hx
  fin_cases hx <;> simp

theorem detectAllUpd_no_gpu_model (e : DetectEnv) :
    ∀ x ∈ detectAllUpd e, x.1 ≠ "gpu_model" := by
  intro x hx
  simp only [detectAllUpd, List.mem_append] at hx
  rcases hx with ((((((((hx | hx) | hx) | hx) | hx) | hx) | hx) | hx) | hx) | hx
  · exact detectSystemInfoUpd_no_gpu_model _ _ _ x hx
  · exact detectProcessorUpd_no_gpu_model _ _ x hx
  · exact detectMemoryUpd_no_gpu_model _ _ x hx
  · exact detectDisplayUpd_no_gpu_model _ _ _ _ _ _ _ _ x hx
  · exact detectGraphicsUpd_no_gpu_model _ x hx
  · exact detectStorageUpd_no_gpu_model _ _ _ _ x hx
  · exact detectBatteryUpd_no_gpu_model _ _ _ _ _ _ x hx
  · exact detectNetworkUpd_no_gpu_model _ _ _ x hx
  · exact detectUsbUpd_no_gpu_model _ _ x hx
  · exact detectWebcamUpd_no_gpu_model _ x hx

/-- `prompt_manual_fields` only writes `screen_size_inches` and
`has_touchscreen` into the raw bag, so `gpu_model` is untouched. -/
theorem promptRaw_get?_gpu_model (u : PromptEnv) (b : Bag) :
    (promptRaw u b).get? "gpu_model" = b.get? "gpu_model" := by
  simp only [promptRaw]
  split
  · split
    · rw [Bag.get?_set_ne _ _ _ _ (by simp), Bag.get?_set_ne _ _ _ _ (by simp)]
    · rw [Bag.get?_set_ne _ _ _ _ (by simp)]
  · split
    · rw [Bag.get?_set_ne _ _ _ _ (by simp)]
    · rfl

/-- C3: no detection run ever writes the key `gpu_model` into the raw
bag; consequently the marketplace attribute
`_GraphicsCard_15196_CAT_1002_EN` is always pruned from the mapped
attribute set, and the uploader's `gpu_model` fast paths in
`extract_integrated_gpu` / `extract_dedicated_gpu` are never taken on
detector-produced data, before or after the manual prompt step. -/
theorem c3_gpu_model_never_set (e : DetectEnv) (u : PromptEnv) :
    (detect_all e).get? "gpu_model" = Option.none ∧
    (detect_all e).hasKey "gpu_model" = false ∧
    (map_to_bestbuy_fields (detect_all e)).lookup
      "_GraphicsCard_15196_CAT_1002_EN" = Option.none ∧
    gpuFastPathIntegrated (detect_all e) = false ∧
    gpuFastPathDedicated (detect_all e) = false ∧
    gpuFastPathIntegrated (promptRaw u (detect_all e)) = false ∧
    gpuFastPathDedicated (promptRaw u (detect_all e)) = false := by
  have hget : (detect_all e).get? "gpu_model" = Option.none := by
    rw [detect_all, get?_applyUpdates_ne _ _ _ (detectAllUpd_no_gpu_model e)]
    rfl
  have htruthy : ∀ v, ("_GraphicsCard_15196_CAT_1002_EN", v) ∈
      bestbuyEntries (detect_all e) → pyTruthy v = false := by
    intro v hv
    simp [bestbuyEntries] at hv
    rw [hv, Bag.getD, hget]
    rfl
  refine ⟨hget, ?_, ?_, ?_, ?_, ?_, ?_⟩
  · rw [Bag.hasKey, hget]
    rfl
  · rw [map_to_bestbuy_fields]
    exact lookup_filter_none _ _ htruthy
  · simp [gpuFastPathIntegrated, Bag.hasKey, hget]
  · simp [gpuFastPathDedicated, Bag.hasKey, hget]
  · simp [gpuFastPathIntegrated, Bag.hasKey, promptRaw_get?_gpu_model, hget]
  · simp [gpuFastPathDedicated, Bag.hasKey, promptRaw_get?_gpu_model, hget]

/-! ## C1: the model-exists short circuit -/

def c1Fields : ModelFields :=
  { base_model_name := .str "XPS 13",
    cpu_model := .str "Intel i5",
    screen_size_inches := .rat (mkRat 133 10),
    has_touchscreen := false,
    integrated_gpu_model := Value.null,
    dedicated_gpu_model := Value.null }

/-- An existing hardware-detail row whose brand is `Dell`. -/
def c1Hw : HardwareRow := hardwareDataOf 1 [("brand", Value.str "Dell")] []

def c1Db : Db :=
  { models := [{ id := 1, fields := c1Fields }],
    hardware := [c1Hw], variants := [], laptops := [], manualFields := [],
    nextId := 2 }

def c1Rem : Remote :=
  { failModelSelect := false, failModelInsert := false,
    failHardwareUpsert := false, failVariantSelect := false,
    failVariantInsert := false, failInventoryUpsert := false,
    failManualUpsert := false, skuGen := fun _ => "SKU-X" }

/-- A detection bag agreeing with the stored laptop on brand, CPU,
screen size, touchscreen flag and both GPU columns, but carrying a
longer product name. -/
def c1Raw : Bag :=
  [("brand", .str "Dell"), ("model", .str "XPS 13 9300"),
   ("cpu_model", .str "Intel i5"),
   ("screen_size_inches", .rat (mkRat 133 10))]

/-- C1 counterexample: the existence check matches on
`base_model_name` (the product name), not on the brand.  Here every
key field the claim lists — brand, CPU, screen size, touchscreen flag
and the two GPU columns — is identical to the stored row, yet the run
does not short-circuit: it returns status `created`, inserts a second
model row, and writes to the variant, inventory and manual-fields
tables. -/
theorem c1_counterexample :
    sqlEq c1Hw.brand (c1Raw.getD "brand" Value.null) = true ∧
    (modelDataOf c1Raw []).cpu_model = c1Fields.cpu_model ∧
    (modelDataOf c1Raw []).screen_size_inches = c1Fields.screen_size_inches ∧
    (modelDataOf c1Raw []).has_touchscreen = c1Fields.has_touchscreen ∧
    (modelDataOf c1Raw []).integrated_gpu_model = c1Fields.integrated_gpu_model ∧
    (modelDataOf c1Raw []).dedicated_gpu_model = c1Fields.dedicated_gpu_model ∧
    (upload_to_database c1Rem c1Db c1Raw []).1 =
      .ok { model_id := 2, variant_id := some 3, shop_sku := some "SKU-X",
            status := "created", message := uploadSuccessMsg } ∧
    (upload_to_database c1Rem c1Db c1Raw []).2.models.length = 2 ∧
    (upload_to_database c1Rem c1Db c1Raw []).2.laptops.length = 1 ∧
    (upload_to_database c1Rem c1Db c1Raw []).2.variants.length = 1 ∧
    (upload_to_database c1Rem c1Db c1Raw []).2.manualFields.length = 1 :=
  ⟨rfl, rfl, rfl, rfl, rfl, rfl, rfl, rfl, rfl, rfl, rfl⟩

/-- C1 (amended): the dedup key of the existence check is the tuple
(`base_model_name`, `cpu_model`, `screen_size_inches`,
`has_touchscreen`, null-aware `integrated_gpu_model` /
`dedicated_gpu_model`) — the product name rather than the brand.  When
the select succeeds and some stored row matches that tuple,
`upload_to_database` returns status `exists` with `variant_id` and
`shop_sku` both `None` and leaves the database exactly as it was: no
model, hardware-detail, variant, inventory or manual-fields write. -/
theorem c1_model_exists_short_circuit (rem : Remote) (db : Db) (raw bb : Bag)
    (r : ModelRow)
    (hsel : rem.failModelSelect = false)
    (hfind : db.models.find?
      (fun x => modelMatches (modelDataOf raw bb) x.fields) = some r) :
    upload_to_database rem db raw bb =
      (.ok { model_id := r.id, variant_id := Option.none, shop_sku := Option.none,
             status := "exists", message := uploadExistsMsg }, db) := by
  simp [upload_to_database, hsel, hfind]

/-- A second detection of the stored laptop: all six key fields match. -/
def c1RawMatch : Bag :=
  [("model", .str "XPS 13"), ("cpu_model", .str "Intel i5"),
   ("screen_size_inches", .rat (mkRat 133 10))]

theorem c1_witness :
    upload_to_database c1Rem c1Db c1RawMatch [] =
      (.ok { model_id := 1, variant_id := Option.none, shop_sku := Option.none,
             status := "exists", message := uploadExistsMsg }, c1Db) :=
  c1_model_exists_short_circuit c1Rem c1Db c1RawMatch []
    { id := 1, fields := c1Fields } rfl rfl

/-! ## C5: failure propagation, no rollback, local fallback -/

/-- The database after step 2's model insert. -/
def dbAfterModelInsert (db : Db) (raw bb : Bag) : Db :=
  { db with
    models := db.models ++ [{ id := db.nextId, fields := modelDataOf raw bb }],
    nextId := db.nextId + 1 }

/-- The database after step 2's model insert and step 3's hardware
upsert. -/
def dbAfterHardware (db : Db) (raw bb : Bag) : Db :=
  let db1 := dbAfterModelInsert db raw bb
  { db1 with
    hardware := upsertHardware db1.hardware (hardwareDataOf db.nextId raw bb) }

theorem isNull_int (n : Int) : (Value.int n).isNull = false := rfl

theorem isNull_bool (b : Bool) : (Value.bool b).isNull = false := rfl

/-- `manual_fields_data` always keeps `variant_id` and the two boolean
fields, so the `len(...) > 1` guard always holds. -/
theorem manualPayload_length_gt_one (vid : Nat) (bb : Bag) :
    1 < (manualPayload vid bb).length := by
  simp only [manualPayload]
  cases h1 : (bb.getD "_KeyboardLanguage_24678_CAT_1002_EN" Value.null).isNull <;>
  cases h2 : (bb.getD "_Colour_5105_CAT_1002_EN" Value.null).isNull <;>
  cases h3 : (bb.getD "_ProductCondition_20257570_CAT_1002_EN" Value.null).isNull <;>
    simp [List.filter_cons, isNull_int, isNull_bool, h1, h2, h3]

/-- C5: every remote failure aborts `upload_to_database` right there,
propagating that step's error with no retry, keeping every earlier
write (no rollback) and performing none of the later ones; and when
the secrets load succeeded but the upload errored, `main` falls back
to writing the two local JSON files. -/
theorem c5_failure_propagation (rem : Remote) (db : Db) (raw bb : Bag) :
    (rem.failModelSelect = true →
      upload_to_database rem db raw bb = (.error "model select failed", db)) ∧
    (rem.failModelSelect = false →
      db.models.find? (fun x => modelMatches (modelDataOf raw bb) x.fields) =
        Option.none →
      rem.failModelInsert = true →
      upload_to_database rem db raw bb = (.error "model insert failed", db)) ∧
    (rem.failModelSelect = false →
      db.models.find? (fun x => modelMatches (modelDataOf raw bb) x.fields) =
        Option.none →
      rem.failModelInsert = false →
      rem.failHardwareUpsert = true →
      upload_to_database rem db raw bb =
        (.error "hardware data insert failed", dbAfterModelInsert db raw bb)) ∧
    (rem.failModelSelect = false →
      db.models.find? (fun x => modelMatches (modelDataOf raw bb) x.fields) =
        Option.none →
      rem.failModelInsert = false →
      rem.failHardwareUpsert = false →
      rem.failVariantSelect = true →
      upload_to_database rem db raw bb =
        (.error "variant select failed", dbAfterHardware db raw bb)) ∧
    (rem.failModelSelect = false →
      db.models.find? (fun x => modelMatches (modelDataOf raw bb) x.fields) =
        Option.none →
      rem.failModelInsert = false →
      rem.failHardwareUpsert = false →
      rem.failVariantSelect = false →
      (dbAfterHardware db raw bb).variants.find?
        (variantMatches db.nextId (ramGbOf raw) (ssdGbOf raw)) = Option.none →
      rem.failVariantInsert = true →
      upload_to_database rem db raw bb =
        (.error "variant insert failed", dbAfterHardware db raw bb)) ∧
    (∀ d mid vid sku, rem.failInventoryUpsert = true →
      afterVariantSteps rem d bb mid vid sku =
        (.error "inventory upsert failed", d)) ∧
    (∀ d mid vid sku, rem.failInventoryUpsert = false →
      rem.failManualUpsert = true →
      afterVariantSteps rem d bb mid vid sku =
        (.error "manual fields upsert failed",
         { d with laptops := upsertInventory d.laptops ⟨mid, 0, 0⟩ })) ∧
    (∀ fs s, load_secrets fs = .ok s →
      ∀ msg db2, upload_to_database rem db raw bb = (.error msg, db2) →
      mainUploadBranch fs rem db raw bb =
        { db := db2, result := Option.none,
          files := ["laptop_hardware_data.json",
                    "laptop_hardware_data_bestbuy_only.json"] }) := by
  refine ⟨?_, ?_, ?_, ?_, ?_, ?_, ?_, ?_⟩
  · intro h
    simp [upload_to_database, h]
  · intro h1 h2 h3
    simp [upload_to_database, h1, h2, h3]
  · intro h1 h2 h3 h4
    simp [upload_to_database, dbAfterModelInsert, h1, h2, h3, h4]
  · intro h1 h2 h3 h4 h5
    simp [upload_to_database, dbAfterHardware, dbAfterModelInsert, h1, h2, h3, h4, h5]
  · intro h1 h2 h3 h4 h5 hf h6
    simp only [dbAfterHardware, dbAfterModelInsert] at hf
    simp [upload_to_database, dbAfterHardware, dbAfterModelInsert,
      h1, h2, h3, h4, h5, hf, h6]
  · intro d mid vid sku h
    simp [afterVariantSteps, h]
  · intro d mid vid sku h1 h2
    have hlen := manualPayload_length_gt_one vid bb
    simp [afterVariantSteps, h1, h2, hlen]
  · intro fs s hs msg db2 hup
    simp only [mainUploadBranch, hs, hup]
    rfl

def c5Rem : Remote :=
  { failModelSelect := true, failModelInsert := false,
    failHardwareUpsert := false, failVariantSelect := false,
    failVariantInsert := false, failInventoryUpsert := false,
    failManualUpsert := false, skuGen := fun _ => "SKU-Y" }

def c5Db : Db :=
  { models := [], hardware := [], variants := [], laptops := [],
    manualFields := [], nextId := 1 }

def c5Secrets : SecretsFile :=
  { present := true,
    parsed := .ok [("supabase_url", .str "u"), ("supabase_anon_key", .str "k")] }

theorem c5_witness :
    mainUploadBranch c5Secrets c5Rem c5Db [] [] =
      { db := c5Db, result := Option.none,
        files := ["laptop_hardware_data.json",
                  "laptop_hardware_data_bestbuy_only.json"] } :=
  (c5_failure_propagation c5Rem c5Db [] []).2.2.2.2.2.2.2
    c5Secrets [("supabase_url", .str "u"), ("supabase_anon_key", .str "k")] rfl
    "model select failed" c5Db rfl

/-! ## C9: `load_secrets` error behaviour -/

/-- A secrets file that exists but is not valid JSON. -/
def c9BadSecrets : SecretsFile :=
  { present := true, parsed := .error "Expecting value: line 1 column 1 (char 0)" }

/-- C9 counterexample to the claimed `iff`: `json.JSONDecodeError` is a
subclass of `ValueError`, so an existing file that fails to parse also
surfaces as a `ValueError` to `except ValueError` handlers, even though
the file never parsed and no required key was checked. -/
theorem c9_counterexample :
    c9BadSecrets.present = true ∧
    (∃ m, c9BadSecrets.parsed = Except.error m) ∧
    ∃ e, load_secrets c9BadSecrets = .error e ∧ e.isValueError = true :=
  ⟨rfl, ⟨"Expecting value: line 1 column 1 (char 0)", rfl⟩,
   ⟨.jsonDecodeError "Expecting value: line 1 column 1 (char 0)", rfl, rfl⟩⟩

/-- C9 (amended): `load_secrets` raises `FileNotFoundError` exactly
when the file is missing; on an existing file it propagates the JSON
parse error (which is a `ValueError` by subclassing), raises a plain
`ValueError` listing the missing required keys when the parsed dict
lacks any of `supabase_url` / `supabase_anon_key`, and otherwise
returns the parsed dictionary unchanged; in `main`, every load error
triggers the two-file local fallback. -/
theorem c9_load_secrets_behaviour (fs : SecretsFile) (rem : Remote) (db : Db)
    (raw bb : Bag) :
    (fs.present = false →
      load_secrets fs =
        .error (.fileNotFound "Secrets file not found: secrets.json")) ∧
    (∀ m, fs.present = true → fs.parsed = .error m →
      load_secrets fs = .error (.jsonDecodeError m) ∧
      (PyErr.jsonDecodeError m).isValueError = true) ∧
    (∀ s, fs.present = true → fs.parsed = .ok s →
      requiredSecrets.filter (fun k => !(s.any (fun p => p.1 == k))) = [] →
      load_secrets fs = .ok s) ∧
    (∀ s ks, fs.present = true → fs.parsed = .ok s →
      requiredSecrets.filter (fun k => !(s.any (fun p => p.1 == k))) = ks →
      ks ≠ [] →
      load_secrets fs =
        .error (.valueError ("Missing required secrets: " ++ pyJoin ", " ks))) ∧
    (∀ e, load_secrets fs = .error e →
      mainUploadBranch fs rem db raw bb =
        { db := db, result := Option.none,
          files := ["laptop_hardware_data.json",
                    "laptop_hardware_data_bestbuy_only.json"] }) := by
  refine ⟨?_, ?_, ?_, ?_, ?_⟩
  · intro hp
    simp [load_secrets, hp]
  · intro m hp hm
    exact ⟨by simp [load_secrets, hp, hm], rfl⟩
  · intro s hp hs hks
    simp [load_secrets, hp, hs, hks]
  · intro s ks hp hs hks hne
    cases ks with
    | nil => exact absurd rfl hne
    | cons k ks2 => simp [load_secrets, hp, hs, hks]
  · intro e he
    simp only [mainUploadBranch, he]
    rfl

/-- A parsed secrets file missing `supabase_anon_key`. -/
def c9MissingKey : SecretsFile :=
  { present := true, parsed := .ok [("supabase_url", .str "u")] }

theorem c9_witness :
    load_secrets c9MissingKey =
      .error (.valueError "Missing required secrets: supabase_anon_key") :=
  (c9_load_secrets_behaviour c9MissingKey c5Rem c5Db [] []).2.2.2.1
    [("supabase_url", .str "u")] ["supabase_anon_key"] rfl rfl rfl (by simp)
